import Mathlib

/-!
# OpenZWaveBackend

A shallow embedding of `openzwavebackend.cpp` / `openzwavebackend.h`: the network
registry (`m_serialPorts`, `m_homeIds`, `m_pendingNetworkSetups`), the controller
command correlator (`m_pendingControllerCommands`, `m_controllerCommand`) and the
notification handlers, followed by theorems about them.

Conventions of the embedding

* `QUuid`, `quint32` and `quint8` values are natural numbers; the null `QUuid` is `0`.
* A `QHash` is an association list with at most one entry per key.
* A `ZWaveReply*` is the index of the reply object in `State.replies`.
* The two build variants are selected by the parameter `ozw16` (`true` when the
  source is compiled with `OZW_16` defined).
* Every call into the OpenZWave manager that asks it to act is appended to
  `State.calls`; where the source uses the value returned by such a call, that value
  is a parameter of the embedded function. The read primitives of the manager are the
  fields of `Manager`.
* An `OZWException` thrown by the manager is the `error` case of `Except`.
* Every Qt signal emitted by the backend is appended to `State.events`.
-/

namespace OpenZWaveBackend

/-! ## Enumerations -/

/-- The `ZWave::ZWaveError` values the backend resolves replies with. -/
inductive ZWaveError
  | ZWaveErrorNoError
  | ZWaveErrorInUse
  | ZWaveErrorNetworkUuidNotFound
  | ZWaveErrorBackendError
  deriving DecidableEq, Repr

/-- The enum `OpenZWaveBackend::NotificationCode` of the header. -/
inductive NotificationCode
  | NotificationCodeMsgComplete
  | NotificationCodeTimeout
  | NotificationCodeNoOperation
  | NotificationCodeAwake
  | NotificationCodeSleep
  | NotificationCodeDead
  | NotificationCodeAlive
  deriving DecidableEq, Repr

/-- The enum `OpenZWaveBackend::ControllerCommand` of the header. -/
inductive ControllerCommand
  | ControllerCommandNone
  | ControllerCommandAddDevice
  | ControllerCommandCreateNewPrimary
  | ControllerCommandReceiveConfiguration
  | ControllerCommandRemoveDevice
  | ControllerCommandRemoveFailedNode
  | ControllerCommandHasNodeFailed
  | ControllerCommandReplaceFailedNode
  | ControllerCommandTransferPrimaryRole
  | ControllerCommandRequestNetworkUpdate
  | ControllerCommandRequestNodeNeighborUpdate
  | ControllerCommandAssignReturnRoute
  | ControllerCommandDeleteAllReturnRoutes
  | ControllerCommandSendNodeInformation
  | ControllerCommandReplicationSend
  | ControllerCommandCreateButton
  | ControllerCommandDeleteButton
  deriving DecidableEq, Repr

/-- The enum `OpenZWaveBackend::ControllerState` of the header. -/
inductive ControllerState
  | ControllerStateNormal
  | ControllerStateStarting
  | ControllerStateCancel
  | ControllerStateError
  | ControllerStateWaiting
  | ControllerStateSleeping
  | ControllerStateInProgress
  | ControllerStateCompleted
  | ControllerStateFailed
  | ControllerStateNodeOK
  | ControllerStateNodeFailed
  deriving DecidableEq, Repr

/-- Application-chosen network identifier (`QUuid`); `0` is the null uuid. -/
abbrev QUuid := Nat

/-! ## QHash -/

namespace QHash

variable {κ ν : Type} [DecidableEq κ] [DecidableEq ν]

/-- The value stored under `k`, if there is one. -/
def get? (m : List (κ × ν)) (k : κ) : Option ν :=
  (m.find? (fun e => decide (e.1 = k))).map Prod.snd

/-- The Qt call `QHash::contains(key)`. -/
def contains (m : List (κ × ν)) (k : κ) : Bool :=
  (get? m k).isSome

/-- The Qt call `QHash::value(key)`: the stored value, or the default-constructed one. -/
def value (m : List (κ × ν)) (k : κ) (dflt : ν) : ν :=
  (get? m k).getD dflt

/-- The Qt call `QHash::remove(key)`. -/
def remove (m : List (κ × ν)) (k : κ) : List (κ × ν) :=
  m.filter (fun e => decide (e.1 ≠ k))

/-- The Qt call `QHash::insert(key, value)`: an existing entry of the key is replaced. -/
def insert (m : List (κ × ν)) (k : κ) (v : ν) : List (κ × ν) :=
  (k, v) :: remove m k

/-- The Qt call `QHash::key(value)`: the first key holding `v` in iteration order,
or the default-constructed key. Qt leaves the iteration order unspecified; the
model iterates in list order. -/
def key (m : List (κ × ν)) (v : ν) (dflt : κ) : κ :=
  ((m.find? (fun e => decide (e.2 = v))).map Prod.fst).getD dflt

/-- The Qt call `QHash::values()`. -/
def values (m : List (κ × ν)) : List ν :=
  m.map Prod.snd

end QHash

/-! ## Values -/

/-- The enum `ZWaveValue::Type` of libnymea, which mirrors the value types of
OpenZWave. The source names `TypeBool`, `TypeByte`, `TypeDecimal`, `TypeInt`,
`TypeList`, `TypeShort`, `TypeString`, `TypeButton` and `TypeBitSet`; the other
constructors are the remaining types of the enum. -/
inductive ValueType
  | TypeBool
  | TypeByte
  | TypeDecimal
  | TypeInt
  | TypeList
  | TypeSchedule
  | TypeShort
  | TypeString
  | TypeButton
  | TypeRaw
  | TypeBitSet
  deriving DecidableEq, Repr

/-- A C `float`, carried as its bit pattern; the backend only passes it on. -/
structure QFloat where
  bits : Nat
  deriving DecidableEq, Repr

/-- The `QVariant` payloads the backend builds or takes apart: an invalid variant, a
`bool`, an `int` (also holding the promoted `quint8` and `qint16` readings), a
`float`, a `QString` and a `QStringList`. -/
inductive QVariant
  | invalid
  | bool (b : Bool)
  | int (i : Int)
  | float (f : QFloat)
  | string (s : String)
  | stringList (l : List String)
  deriving DecidableEq, Repr

/-- The class `ZWaveValue` of libnymea, as the backend uses it: the constructor
arguments, and the payload and selection stored by `setValue(variant, selection)`. -/
structure ZWaveValue where
  id : Nat
  genre : Nat
  commandClass : Nat
  inst : Nat
  index : Nat
  type : ValueType
  description : String
  value : QVariant
  valueListSelection : Int
  deriving DecidableEq, Repr

/-- The value descriptor `OpenZWave::ValueID` built by `readValue`. -/
structure ValueID where
  homeId : Nat
  nodeId : Nat
  genre : Nat
  commandClassId : Nat
  inst : Nat
  index : Nat
  type : ValueType
  deriving DecidableEq, Repr

/-- The fields of `OpenZWave::Node::NodeData` read by `updateNodeLinkQuality`. -/
structure NodeData where
  m_quality : Nat
  m_rssi_1 : String
  m_rssi_2 : String
  m_rssi_3 : String
  m_rssi_4 : String
  m_rssi_5 : String
  deriving DecidableEq, Repr

/-- The value of `OpenZWave::ValueID::ValueGenre_System` in the OpenZWave enum (Basic,
User, Config, System). -/
def ValueGenre_System : Nat := 3

/-- The message of an `OpenZWave::OZWException`. -/
abbrev OZWException := String

/-- The read primitives of `OpenZWave::Manager`: for each call, what it stores in its
out-parameter (or returns), or the exception it throws. -/
structure Manager where
  GetValueAsBool : ValueID → Except OZWException Bool
  GetValueAsShort : ValueID → Except OZWException Int
  GetValueAsByte : ValueID → Except OZWException Nat
  GetValueAsInt : ValueID → Except OZWException Int
  GetValueListItems : ValueID → Except OZWException (List String)
  GetValueListSelection : ValueID → Except OZWException String
  GetValueAsFloat : ValueID → Except OZWException QFloat
  GetValueAsString : ValueID → Except OZWException String
  GetValueHelp : ValueID → Except OZWException String
  GetNodeStatistics : Nat → Nat → Except OZWException NodeData

/-- The conversions `QVariant::toBool`, `QVariant::toUInt` and `QVariant::toInt` of
the Qt library, which `setValue` applies to the payload it is given. -/
structure QVariantConversions where
  toBool : QVariant → Bool
  toUInt : QVariant → Nat
  toInt : QVariant → Int

/-! ## State -/

/-- A `ZWaveReply` object: the statuses its `finished` signal was emitted with (oldest
first) and the home ids captured by the lambdas connected to that signal. -/
structure ZWaveReply where
  finishedWith : List ZWaveError
  connected : List Nat
  deriving DecidableEq, Repr

/-- Calls into the OpenZWave manager and options objects. -/
inductive Call
  | AddOptionString (name : String) (value : String)
  | AddDriver (serialPort : String)
  | RemoveDriver (serialPort : String)
  | ResetController (homeId : Nat)
  | AddNode (homeId : Nat) (useSecurity : Bool)
  | RemoveNode (homeId : Nat)
  | RemoveFailedNode (homeId : Nat) (nodeId : Nat)
  | CancelControllerCommand (homeId : Nat)
  | SetValueBool (homeId id : Nat) (value : Bool)
  | PressButton (homeId id : Nat)
  | ReleaseButton (homeId id : Nat)
  | SetValueByte (homeId id : Nat) (value : Nat)
  | SetValueShort (homeId id : Nat) (value : Int)
  | SetValueListSelection (homeId id : Nat) (selection : String)
  deriving DecidableEq, Repr

/-- Signals of `ZWaveBackend` emitted by the handlers modelled here. -/
inductive Event
  | networkStarted (networkUuid : QUuid)
  | networkFailed (networkUuid : QUuid)
  | nodeAdded (networkUuid : QUuid) (nodeId : Nat)
  | nodeRemoved (networkUuid : QUuid) (nodeId : Nat)
  | nodeDataChanged (networkUuid : QUuid) (nodeId : Nat)
  | nodeInitialized (networkUuid : QUuid) (nodeId : Nat)
  | valueAdded (networkUuid : QUuid) (nodeId : Nat) (value : ZWaveValue)
  | valueChanged (networkUuid : QUuid) (nodeId : Nat) (value : ZWaveValue)
  | valueRemoved (networkUuid : QUuid) (nodeId : Nat) (id : Nat)
  | nodeLinkQualityStatus (networkUuid : QUuid) (nodeId : Nat) (linkQuality : Nat)
  | nodeReachableStatus (networkUuid : QUuid) (nodeId : Nat) (reachable : Bool)
  | nodeFailedStatus (networkUuid : QUuid) (nodeId : Nat) (failed : Bool)
  | nodeSleepStatus (networkUuid : QUuid) (nodeId : Nat) (sleeping : Bool)
  | waitingForNodeAdditionChanged (networkUuid : QUuid) (waiting : Bool)
  | waitingForNodeRemovalChanged (networkUuid : QUuid) (waiting : Bool)
  deriving DecidableEq, Repr

/-- The data members of `OpenZWaveBackend`. `m_options` is `true` while the
options and manager objects exist (they are created and destroyed together).
`m_controllerCommand` exists only without `OZW_16`; with `OZW_16` it is never
read or written. -/
structure Backend where
  m_options : Bool
  m_serialPorts : List (QUuid × String)
  m_homeIds : List (QUuid × Nat)
  m_pendingNetworkSetups : List QUuid
  m_pendingControllerCommands : List (Nat × Nat)
  m_controllerCommand : ControllerCommand
  deriving DecidableEq, Repr

/-- The backend together with the reply objects it created and the traces of
emitted signals and manager calls (oldest first). -/
structure State where
  b : Backend
  replies : List ZWaveReply
  events : List Event
  calls : List Call
  deriving DecidableEq, Repr

/-- A freshly constructed backend. -/
def Backend.init : Backend :=
  { m_options := false, m_serialPorts := [], m_homeIds := [], m_pendingNetworkSetups := [],
    m_pendingControllerCommands := [], m_controllerCommand := .ControllerCommandNone }

/-- A freshly constructed backend with empty traces. -/
def State.init : State :=
  { b := Backend.init, replies := [], events := [], calls := [] }

/-- Appends a signal emission to the trace (`emit ...`). -/
def emit (s : State) (e : Event) : State :=
  { s with events := s.events ++ [e] }

/-- Appends a manager call to the trace (`m_manager->...`). -/
def call (s : State) (c : Call) : State :=
  { s with calls := s.calls ++ [c] }

/-! ## Replies -/

/-- The expression `new ZWaveReply(this)`: a reply that has not finished and has no
connection; its pointer is the index of the new object. -/
def newReply (s : State) : State × Nat :=
  ({ s with replies := s.replies ++ [{ finishedWith := [], connected := [] }] },
   s.replies.length)

/-- Emission of `reply->finished(status)`: the status is recorded on the reply and
the connected lambdas run, each removing its captured home id from
`m_pendingControllerCommands`. -/
def emitFinished (s : State) (reply : Nat) (status : ZWaveError) : State :=
  match s.replies[reply]? with
  | none => s
  | some r =>
    { s with
      replies := s.replies.set reply { r with finishedWith := r.finishedWith ++ [status] },
      b := { s.b with
             m_pendingControllerCommands :=
               r.connected.foldl QHash.remove s.b.m_pendingControllerCommands } }

/-- The base class call `ZWaveBackend::finishReply(reply, status)`. The base class is
not part of the sources; it is taken to resolve the reply by emitting its
`finished` signal with `status`. -/
def finishReply (s : State) (reply : Nat) (status : ZWaveError) : State :=
  emitFinished s reply status

/-- The base class call `ZWaveBackend::startReply(reply)`. The base class is not part
of the sources; starting a reply does not resolve it and touches no member of the
backend. -/
def startReply (s : State) (_reply : Nat) : State :=
  s

/-- The statement `connect(reply, &ZWaveReply::finished, this, [this, homeId]()...)`
of the command operations. -/
def connectFinished (s : State) (reply : Nat) (homeId : Nat) : State :=
  match s.replies[reply]? with
  | none => s
  | some r => { s with replies := s.replies.set reply { r with connected := r.connected ++ [homeId] } }

/-- The statuses the reply `reply` has finished with so far, oldest first: empty
while the reply is unresolved. -/
def finishedWith (s : State) (reply : Nat) : List ZWaveError :=
  ((s.replies[reply]?).map ZWaveReply.finishedWith).getD []

/-! ## Session set-up -/

/-- The Qt call `QString::insert(position, str)`: a position beyond the end first
extends the string with spaces. -/
def QString.insert (s : List Char) (position : Nat) (str : List Char) : List Char :=
  if position > s.length then s ++ List.replicate (position - s.length) ' ' ++ str
  else s.take position ++ str ++ s.drop position

/-- The loop `for (int i = 15; i > 0; i--) key.insert(i*2, ", 0x")` of `initOZW`,
entered with `i` iterations left. -/
def networkKeyLoop : Nat → List Char → List Char
  | 0, key => key
  | i + 1, key => networkKeyLoop i (QString.insert key ((i + 1) * 2) ", 0x".toList)

/-- The string `initOZW` passes as the `NetworkKey` option. -/
def networkKeyOption (networkKey : String) : String :=
  String.mk ("0x".toList ++ networkKeyLoop 15 networkKey.toList)

/-- The function `OpenZWaveBackend::initOZW`: creates the options and the manager
and registers the network key. The fixed logging and polling options carry no data
of the model and are left out of the call trace. -/
def initOZW (s : State) (networkKey : String) : State :=
  let s1 := call s (.AddOptionString "NetworkKey" (networkKeyOption networkKey))
  { s1 with b := { s1.b with m_options := true } }

/-- The function `OpenZWaveBackend::deinitOZW`. -/
def deinitOZW (s : State) : State :=
  { s with b := { s.b with m_options := false } }

/-! ## Network registry -/

/-- The function `OpenZWaveBackend::startNetwork`; `status` is the value returned by
`m_manager->AddDriver`. -/
def startNetwork (s : State) (networkUuid : QUuid) (serialPort networkKey : String)
    (status : Bool) : State × Bool :=
  let s1 := if !s.b.m_options then initOZW s networkKey else s
  let s2 := call s1 (.AddDriver serialPort)
  if status then
    ({ s2 with b := { s2.b with
        m_pendingNetworkSetups := s2.b.m_pendingNetworkSetups ++ [networkUuid],
        m_serialPorts := QHash.insert s2.b.m_serialPorts networkUuid serialPort } }, true)
  else (s2, false)

/-- The function `OpenZWaveBackend::stopNetwork`; `status` is the value returned by
`m_manager->RemoveDriver`. -/
def stopNetwork (s : State) (networkUuid : QUuid) (status : Bool) : State × Bool :=
  if !QHash.contains s.b.m_serialPorts networkUuid then (s, false)
  else
    let s1 := call s (.RemoveDriver (QHash.value s.b.m_serialPorts networkUuid ""))
    let s2 := { s1 with b := { s1.b with
                  m_serialPorts := QHash.remove s1.b.m_serialPorts networkUuid,
                  m_homeIds := QHash.remove s1.b.m_homeIds networkUuid } }
    let s3 := if s2.b.m_serialPorts.isEmpty then deinitOZW s2 else s2
    (s3, status)

/-- The function `OpenZWaveBackend::homeId`. -/
def homeId (s : State) (networkUuid : QUuid) : Nat :=
  QHash.value s.b.m_homeIds networkUuid 0

/-- The function `OpenZWaveBackend::factoryResetNetwork`. -/
def factoryResetNetwork (s : State) (networkUuid : QUuid) : State × Bool :=
  if !QHash.contains s.b.m_homeIds networkUuid then (s, false)
  else
    let s1 := { s with b := { s.b with
                  m_pendingNetworkSetups := s.b.m_pendingNetworkSetups ++ [networkUuid] } }
    (call s1 (.ResetController (QHash.value s1.b.m_homeIds networkUuid 0)), true)

/-- The slot `OpenZWaveBackend::onDriverReady`: the head of the pending setups is
bound to the reported home id. -/
def onDriverReady (s : State) (homeId : Nat) : State :=
  match s.b.m_pendingNetworkSetups with
  | [] => s
  | networkUuid :: rest =>
    let s1 := { s with b := { s.b with
                  m_pendingNetworkSetups := rest,
                  m_homeIds := QHash.insert s.b.m_homeIds networkUuid homeId } }
    emit s1 (.networkStarted (QHash.key s1.b.m_homeIds homeId 0))

/-- The slot `OpenZWaveBackend::onDriverFailed(const QString &serialPort)` of the
`OZW_16` variant. -/
def onDriverFailed_OZW16 (s : State) (serialPort : String) : State :=
  if !(QHash.values s.b.m_serialPorts).contains serialPort then s
  else emit s (.networkFailed (QHash.key s.b.m_serialPorts serialPort 0))

/-- The slot `OpenZWaveBackend::onDriverFailed()` of the variant without `OZW_16`.
`QList::takeFirst` requires a non-empty list; on an empty list the slot has no
defined result (`none`). -/
def onDriverFailed (s : State) : Option State :=
  match s.b.m_pendingNetworkSetups with
  | [] => none
  | networkUuid :: rest =>
    some (emit { s with b := { s.b with m_pendingNetworkSetups := rest } }
      (.networkFailed networkUuid))

/-- The slot `OpenZWaveBackend::onDriverRemoved`: logs only. -/
def onDriverRemoved (s : State) (_homeId : Nat) : State :=
  s

/-! ## Controller commands -/

/-- The statements `startReply(reply); connect(reply, finished, [homeId]...);
m_pendingControllerCommands.insert(homeId, reply)` closing each command operation. -/
def parkReply (s : State) (reply : Nat) (homeId : Nat) : State :=
  let s1 := startReply s reply
  let s2 := connectFinished s1 reply homeId
  { s2 with b := { s2.b with
      m_pendingControllerCommands :=
        QHash.insert s2.b.m_pendingControllerCommands homeId reply } }

/-- The function `OpenZWaveBackend::addNode`; `status` is the value returned by
`m_manager->AddNode`. Returns the new state and the reply. -/
def addNode (ozw16 : Bool) (s : State) (networkUuid : QUuid) (useSecurity : Bool)
    (status : Bool) : State × Nat :=
  let s1 := (newReply s).1
  let reply := (newReply s).2
  if !QHash.contains s1.b.m_homeIds networkUuid then
    (finishReply s1 reply .ZWaveErrorNetworkUuidNotFound, reply)
  else
    let homeId := QHash.value s1.b.m_homeIds networkUuid 0
    if QHash.contains s1.b.m_pendingControllerCommands homeId then
      (emitFinished s1 reply .ZWaveErrorInUse, reply)
    else
      let s2 := if ozw16 then s1
        else { s1 with b := { s1.b with m_controllerCommand := .ControllerCommandAddDevice } }
      let s3 := call s2 (.AddNode (QHash.value s2.b.m_homeIds networkUuid 0) useSecurity)
      if !status then (finishReply s3 reply .ZWaveErrorBackendError, reply)
      else (parkReply s3 reply homeId, reply)

/-- The function `OpenZWaveBackend::removeNode`; `status` is the value returned by
`m_manager->RemoveNode`. Returns the new state and the reply. -/
def removeNode (ozw16 : Bool) (s : State) (networkUuid : QUuid) (status : Bool) :
    State × Nat :=
  let s1 := (newReply s).1
  let reply := (newReply s).2
  if !QHash.contains s1.b.m_homeIds networkUuid then
    (finishReply s1 reply .ZWaveErrorNetworkUuidNotFound, reply)
  else
    let homeId := QHash.value s1.b.m_homeIds networkUuid 0
    if QHash.contains s1.b.m_pendingControllerCommands homeId then
      (finishReply s1 reply .ZWaveErrorInUse, reply)
    else
      let s2 := if ozw16 then s1
        else { s1 with b := { s1.b with m_controllerCommand := .ControllerCommandRemoveDevice } }
      let s3 := call s2 (.RemoveNode homeId)
      if !status then (finishReply s3 reply .ZWaveErrorBackendError, reply)
      else (parkReply s3 reply homeId, reply)

/-- The function `OpenZWaveBackend::removeFailedNode`; `status` is the value returned
by `m_manager->RemoveFailedNode`. Returns the new state and the reply. -/
def removeFailedNode (s : State) (networkUuid : QUuid) (nodeId : Nat) (status : Bool) :
    State × Nat :=
  let s1 := (newReply s).1
  let reply := (newReply s).2
  if !QHash.contains s1.b.m_homeIds networkUuid then
    (finishReply s1 reply .ZWaveErrorNetworkUuidNotFound, reply)
  else
    let homeId := QHash.value s1.b.m_homeIds networkUuid 0
    if QHash.contains s1.b.m_pendingControllerCommands homeId then
      (emitFinished s1 reply .ZWaveErrorInUse, reply)
    else
      let s3 := call s1 (.RemoveFailedNode (QHash.value s1.b.m_homeIds networkUuid 0) nodeId)
      if !status then (finishReply s3 reply .ZWaveErrorBackendError, reply)
      else (parkReply s3 reply homeId, reply)

/-- The function `OpenZWaveBackend::cancelPendingOperation`; `status` is the value
returned by `m_manager->CancelControllerCommand`. Returns the new state and the
reply. -/
def cancelPendingOperation (s : State) (networkUuid : QUuid) (status : Bool) :
    State × Nat :=
  let s1 := (newReply s).1
  let reply := (newReply s).2
  if !QHash.contains s1.b.m_homeIds networkUuid then
    (finishReply s1 reply .ZWaveErrorNetworkUuidNotFound, reply)
  else
    let s2 := call s1 (.CancelControllerCommand (QHash.value s1.b.m_homeIds networkUuid 0))
    (finishReply s2 reply (if status then .ZWaveErrorNoError else .ZWaveErrorInUse), reply)

/-- The statements `if (m_pendingControllerCommands.contains(homeId))
finishReply(m_pendingControllerCommands.take(homeId), status)` of
`onControllerCommand`. -/
def finishPending (s : State) (homeId : Nat) (status : ZWaveError) : State :=
  match QHash.get? s.b.m_pendingControllerCommands homeId with
  | none => s
  | some reply =>
    finishReply
      { s with b := { s.b with
          m_pendingControllerCommands := QHash.remove s.b.m_pendingControllerCommands homeId } }
      reply status

/-- The statement `m_controllerCommand = ControllerCommandNone`, compiled only
without `OZW_16`. -/
def resetControllerCommand (ozw16 : Bool) (s : State) : State :=
  if ozw16 then s
  else { s with b := { s.b with m_controllerCommand := .ControllerCommandNone } }

/-- The slot `OpenZWaveBackend::onControllerCommand`. Without `OZW_16` the reported
command is replaced by the remembered `m_controllerCommand`. -/
def onControllerCommand (ozw16 : Bool) (s : State) (homeId : Nat)
    (command : ControllerCommand) (state : ControllerState) : State :=
  if !(QHash.values s.b.m_homeIds).contains homeId then s
  else
    let command := if ozw16 then command else s.b.m_controllerCommand
    match command with
    | .ControllerCommandAddDevice =>
      if state = .ControllerStateError ∨ state = .ControllerStateFailed then
        resetControllerCommand ozw16 (finishPending s homeId .ZWaveErrorBackendError)
      else if state = .ControllerStateWaiting ∨ state = .ControllerStateNormal then
        let s1 := finishPending s homeId .ZWaveErrorNoError
        emit s1 (.waitingForNodeAdditionChanged (QHash.key s1.b.m_homeIds homeId 0) true)
      else if state = .ControllerStateCompleted then
        resetControllerCommand ozw16
          (emit s (.waitingForNodeAdditionChanged (QHash.key s.b.m_homeIds homeId 0) false))
      else s
    | .ControllerCommandRemoveDevice =>
      if state = .ControllerStateError ∨ state = .ControllerStateFailed then
        resetControllerCommand ozw16 (finishPending s homeId .ZWaveErrorBackendError)
      else if state = .ControllerStateWaiting ∨ state = .ControllerStateNormal then
        let s1 := finishPending s homeId .ZWaveErrorNoError
        emit s1 (.waitingForNodeRemovalChanged (QHash.key s1.b.m_homeIds homeId 0) true)
      else if state = .ControllerStateCompleted then
        resetControllerCommand ozw16
          (emit s (.waitingForNodeRemovalChanged (QHash.key s.b.m_homeIds homeId 0) false))
      else s
    | _ =>
      if state = .ControllerStateCompleted then
        emit (emit s (.waitingForNodeAdditionChanged (QHash.key s.b.m_homeIds homeId 0) false))
          (.waitingForNodeRemovalChanged (QHash.key s.b.m_homeIds homeId 0) false)
      else s

/-! ## Node and status notifications -/

/-- The guard `if (!m_homeIds.values().contains(homeId)) return;` opening the
notification slots, followed by the emission of one signal for the owning network. -/
def emitForNetwork (s : State) (homeId : Nat) (e : QUuid → Event) : State :=
  if !(QHash.values s.b.m_homeIds).contains homeId then s
  else emit s (e (QHash.key s.b.m_homeIds homeId 0))

/-- The slot `OpenZWaveBackend::onNewNode`. -/
def onNewNode (s : State) (homeId nodeId : Nat) : State :=
  emitForNetwork s homeId (fun u => .nodeAdded u nodeId)

/-- The slot `OpenZWaveBackend::onNodeAdded`. -/
def onNodeAdded (s : State) (homeId nodeId : Nat) : State :=
  emitForNetwork s homeId (fun u => .nodeAdded u nodeId)

/-- The slot `OpenZWaveBackend::onNodeNaming`. -/
def onNodeNaming (s : State) (homeId nodeId : Nat) : State :=
  emitForNetwork s homeId (fun u => .nodeDataChanged u nodeId)

/-- The slot `OpenZWaveBackend::onNodeRemoved`. -/
def onNodeRemoved (s : State) (homeId nodeId : Nat) : State :=
  emitForNetwork s homeId (fun u => .nodeRemoved u nodeId)

/-- The slot `OpenZWaveBackend::onValueRemoved`. -/
def onValueRemoved (s : State) (homeId nodeId id : Nat) : State :=
  emitForNetwork s homeId (fun u => .valueRemoved u nodeId id)

/-- The slot `OpenZWaveBackend::onNodeProtocolInfoReceived`. -/
def onNodeProtocolInfoReceived (s : State) (homeId nodeId : Nat) : State :=
  emitForNetwork s homeId (fun u => .nodeDataChanged u nodeId)

/-- The slot `OpenZWaveBackend::onNodeQueryComplete`; the value read by the trailing
`nodeIsSecureDevice` call is discarded. -/
def onNodeQueryComplete (s : State) (homeId nodeId : Nat) : State :=
  emitForNetwork s homeId (fun u => .nodeInitialized u nodeId)

/-- The add-driver timeout of `onZWaveNotification`: the head of the pending setups
is taken, its driver is removed and `networkFailed` is emitted. -/
def addDriverTimeout (s : State) : State :=
  match s.b.m_pendingNetworkSetups with
  | [] => s
  | networkUuid :: rest =>
    let s1 := { s with b := { s.b with m_pendingNetworkSetups := rest } }
    let s2 := call s1 (.RemoveDriver (QHash.value s1.b.m_serialPorts networkUuid ""))
    emit s2 (.networkFailed networkUuid)

/-- The slot `OpenZWaveBackend::onZWaveNotification`. -/
def onZWaveNotification (s : State) (homeId nodeId : Nat) (code : NotificationCode) : State :=
  if homeId = 0 ∧ code = .NotificationCodeTimeout ∧ s.b.m_pendingNetworkSetups.length > 0 then
    addDriverTimeout s
  else if !(QHash.values s.b.m_homeIds).contains homeId then s
  else
    let networkUuid := QHash.key s.b.m_homeIds homeId 0
    match code with
    | .NotificationCodeDead =>
      emit (emit s (.nodeFailedStatus networkUuid nodeId true))
        (.nodeReachableStatus networkUuid nodeId false)
    | .NotificationCodeTimeout => emit s (.nodeReachableStatus networkUuid nodeId false)
    | .NotificationCodeAlive => emit s (.nodeReachableStatus networkUuid nodeId true)
    | .NotificationCodeNoOperation => s
    | .NotificationCodeSleep => emit s (.nodeSleepStatus networkUuid nodeId true)
    | .NotificationCodeAwake => emit s (.nodeSleepStatus networkUuid nodeId false)
    | .NotificationCodeMsgComplete => s

/-! ## Value codec -/

/-- The Qt call `QStringList::indexOf(value)`, searching from position `from`: the
index of the first occurrence, or `-1`. -/
def QStringList.indexOfFrom : List String → String → Nat → Int
  | [], _, _ => -1
  | x :: rest, value, pos => if x = value then (pos : Int) else indexOfFrom rest value (pos + 1)

/-- The Qt call `QStringList::indexOf(value)`. -/
def QStringList.indexOf (list : List String) (value : String) : Int :=
  QStringList.indexOfFrom list value 0

/-- The Qt call `QVariant::toStringList()`: the list of a `QStringList` variant, the
one-element list of a `QString` variant, and the empty list otherwise. -/
def QVariant.toStringList : QVariant → List String
  | .stringList l => l
  | .string s => [s]
  | _ => []

/-- The conversion `static_cast<qint16>` of an `int`. -/
def toQint16 (i : Int) : Int :=
  (i + 32768) % 65536 - 32768

/-- A manager call inside the `try` block of `setValue`: the call is issued and its
result returned; an `OZWException` is caught and turned into `false`. -/
def tryCall (s : State) (c : Call) (result : Except OZWException Bool) : State × Bool :=
  (call s c,
   match result with
   | .ok status => status
   | .error _ => false)

/-- The function `OpenZWaveBackend::setValue`; `result` is what the manager call
answers, should one be issued: its return value, or the exception it throws. -/
def setValue (conv : QVariantConversions) (s : State) (networkUuid : QUuid) (_nodeId : Nat)
    (value : ZWaveValue) (result : Except OZWException Bool) : State × Bool :=
  if !QHash.contains s.b.m_homeIds networkUuid then (s, false)
  else
    let homeId := QHash.value s.b.m_homeIds networkUuid 0
    match value.type with
    | .TypeBool => tryCall s (.SetValueBool homeId value.id (conv.toBool value.value)) result
    | .TypeButton =>
      if conv.toBool value.value then tryCall s (.PressButton homeId value.id) result
      else tryCall s (.ReleaseButton homeId value.id) result
    | .TypeByte =>
      tryCall s (.SetValueByte homeId value.id (conv.toUInt value.value % 256)) result
    | .TypeShort =>
      tryCall s (.SetValueShort homeId value.id (toQint16 (conv.toInt value.value))) result
    | .TypeList =>
      let values := value.value.toStringList
      if value.valueListSelection < 0 ∨ value.valueListSelection ≥ values.length then (s, false)
      else
        tryCall s
          (.SetValueListSelection homeId value.id
            (values.getD value.valueListSelection.toNat ""))
          result
    | _ => (s, false)

/-- The function `OpenZWaveBackend::readValue`. It has no `try` block: an exception
of a read primitive leaves the function. -/
def readValue (m : Manager) (homeId nodeId id genre commandClassId inst index : Nat)
    (type : ValueType) : Except OZWException ZWaveValue := do
  let valueId : ValueID :=
    { homeId := homeId, nodeId := nodeId, genre := genre, commandClassId := commandClassId,
      inst := inst, index := index, type := type }
  let decoded : QVariant × Int ←
    match type with
    | .TypeButton | .TypeBool => do
      let val ← m.GetValueAsBool valueId
      pure (QVariant.bool val, -1)
    | .TypeShort => do
      let val ← m.GetValueAsShort valueId
      pure (QVariant.int val, -1)
    | .TypeByte => do
      let val ← m.GetValueAsByte valueId
      pure (QVariant.int val, -1)
    | .TypeInt => do
      let val ← m.GetValueAsInt valueId
      pure (QVariant.int val, -1)
    | .TypeList => do
      let val ← m.GetValueListItems valueId
      let selectionStr ← m.GetValueListSelection valueId
      pure (QVariant.stringList val, QStringList.indexOf val selectionStr)
    | .TypeDecimal => do
      let val ← m.GetValueAsFloat valueId
      pure (QVariant.float val, -1)
    | .TypeString => do
      let val ← m.GetValueAsString valueId
      pure (QVariant.string val, -1)
    | _ => pure (QVariant.invalid, -1)
  let description ← m.GetValueHelp valueId
  pure
    { id := id, genre := genre, commandClass := commandClassId, inst := inst, index := index,
      type := type, description := description, value := decoded.1,
      valueListSelection := decoded.2 }

/-- The Qt call `QChar::isSpace()`: the code points U+0009 to U+000D, U+0085 and the
separator characters. -/
def QChar.isSpace (c : Char) : Bool :=
  let n := c.toNat
  (9 ≤ n && n ≤ 13) || n = 0x20 || n = 0x85 || n = 0xA0 || n = 0x1680 ||
    (0x2000 ≤ n && n ≤ 0x200A) || n = 0x2028 || n = 0x2029 || n = 0x202F || n = 0x205F ||
    n = 0x3000

/-- The Qt call `QString::toInt(&ok)` in base ten: decimal digits with an optional
sign, surrounding white space ignored, within the range of a 32-bit `int`; `none`
when `ok` is false. -/
def QString.toInt (str : String) : Option Int :=
  let trimmed :=
    ((str.toList.dropWhile QChar.isSpace).reverse.dropWhile QChar.isSpace).reverse
  let digits (ds : List Char) : Option Int :=
    if ds ≠ [] ∧ ds.all Char.isDigit = true then
      some (ds.foldl (fun n c => 10 * n + ((c.toNat : Int) - 48)) 0)
    else none
  let parsed : Option Int :=
    match trimmed with
    | '-' :: ds => (digits ds).map (fun n => -n)
    | '+' :: ds => digits ds
    | ds => digits ds
  parsed.bind (fun v => if -2147483648 ≤ v ∧ v ≤ 2147483647 then some v else none)

/-- One round of the loop over the RSSI strings in `updateNodeLinkQuality` (`OZW_16`),
on the `quint8` variables `avg` and `count`. -/
def rssiStep (acc : Int × Int) (rssi : String) : Int × Int :=
  if rssi = "MAX" then ((acc.1 + -50) % 256, (acc.2 + 1) % 256)
  else if rssi = "MIN" then ((acc.1 + -100) % 256, (acc.2 + 1) % 256)
  else
    match QString.toInt rssi with
    | some v => ((acc.1 + v % 256) % 256, (acc.2 + 1) % 256)
    | none => acc

/-- The averaged RSSI reading of `updateNodeLinkQuality` (`OZW_16`): the `quint8`
variable `avg` after the loop and the division. -/
def rssiAverage (nodeData : NodeData) : Int :=
  let acc := [nodeData.m_rssi_1, nodeData.m_rssi_2, nodeData.m_rssi_3, nodeData.m_rssi_4,
    nodeData.m_rssi_5].foldl rssiStep (0, 0)
  if acc.2 > 0 then (acc.1 / acc.2) % 256 else (-76) % 256

/-- The expression `qMin(100, qMax(0, 2 * (raw + 100)))` stored in the `quint8`
variable `linkQuality`, for a `quint8` reading `raw`. -/
def normalizeLinkQuality (raw : Int) : Nat :=
  ((min 100 (max 0 (2 * (raw + 100)))) % 256).toNat

/-- The link quality computed by `updateNodeLinkQuality`: from the averaged RSSI
reading with `OZW_16`, from `m_quality` without. -/
def linkQuality (ozw16 : Bool) (nodeData : NodeData) : Nat :=
  if ozw16 then normalizeLinkQuality (rssiAverage nodeData)
  else normalizeLinkQuality ((nodeData.m_quality : Int) % 256)

/-- The function `OpenZWaveBackend::updateNodeLinkQuality`. -/
def updateNodeLinkQuality (ozw16 : Bool) (m : Manager) (s : State) (homeId nodeId : Nat) :
    Except OZWException State := do
  let nodeData ← m.GetNodeStatistics homeId nodeId
  pure (emit s (.nodeLinkQualityStatus (QHash.key s.b.m_homeIds homeId 0) nodeId
    (linkQuality ozw16 nodeData)))

/-- The slot `OpenZWaveBackend::onValueAdded`. It has no `try` block: an exception
thrown while the value is read leaves the slot. -/
def onValueAdded (ozw16 : Bool) (m : Manager) (s : State)
    (homeId nodeId id genre commandClass inst index : Nat) (type : ValueType) :
    Except OZWException State :=
  if !(QHash.values s.b.m_homeIds).contains homeId then pure s
  else do
    let value ← readValue m homeId nodeId id genre commandClass inst index type
    let s1 := emit s (.valueAdded (QHash.key s.b.m_homeIds homeId 0) nodeId value)
    updateNodeLinkQuality ozw16 m s1 homeId nodeId

/-- The slot `OpenZWaveBackend::onValueChanged`. It has no `try` block: an exception
thrown while the value is read leaves the slot. -/
def onValueChanged (ozw16 : Bool) (m : Manager) (s : State)
    (homeId nodeId id genre commandClass inst index : Nat) (type : ValueType) :
    Except OZWException State :=
  if !(QHash.values s.b.m_homeIds).contains homeId then pure s
  else do
    let networkUuid := QHash.key s.b.m_homeIds homeId 0
    let value ← readValue m homeId nodeId id genre commandClass inst index type
    let s1 := emit s (.valueChanged networkUuid nodeId value)
    let s2 := emit s1 (.nodeReachableStatus networkUuid nodeId true)
    updateNodeLinkQuality ozw16 m s2 homeId nodeId

/-- The function `OpenZWaveBackend::nodeIsSecureDevice`: the read is inside a `try`
block and an exception gives `false`. -/
def nodeIsSecureDevice (m : Manager) (s : State) (networkUuid : QUuid) (nodeId : Nat) : Bool :=
  if !QHash.contains s.b.m_homeIds networkUuid then false
  else
    match m.GetValueAsBool
      { homeId := QHash.value s.b.m_homeIds networkUuid 0, nodeId := nodeId,
        genre := ValueGenre_System,
        commandClassId := 0x98, inst := 0, index := 0, type := .TypeBool } with
    | .ok secured => secured
    | .error _ => false

/-! ## Sequences of operations -/

/-- The calls of the application and the notifications of the transport that the
model covers. A `status` argument is the value the manager returns to the call. -/
inductive Op
  | startNetwork (networkUuid : QUuid) (serialPort networkKey : String) (status : Bool)
  | stopNetwork (networkUuid : QUuid) (status : Bool)
  | factoryResetNetwork (networkUuid : QUuid)
  | addNode (networkUuid : QUuid) (useSecurity : Bool) (status : Bool)
  | removeNode (networkUuid : QUuid) (status : Bool)
  | removeFailedNode (networkUuid : QUuid) (nodeId : Nat) (status : Bool)
  | cancelPendingOperation (networkUuid : QUuid) (status : Bool)
  | onDriverReady (homeId : Nat)
  | onDriverFailed (serialPort : String)
  | onDriverRemoved (homeId : Nat)
  | onNewNode (homeId nodeId : Nat)
  | onNodeAdded (homeId nodeId : Nat)
  | onNodeNaming (homeId nodeId : Nat)
  | onNodeRemoved (homeId nodeId : Nat)
  | onValueRemoved (homeId nodeId id : Nat)
  | onNodeProtocolInfoReceived (homeId nodeId : Nat)
  | onNodeQueryComplete (homeId nodeId : Nat)
  | onZWaveNotification (homeId nodeId : Nat) (code : NotificationCode)
  | onControllerCommand (homeId : Nat) (command : ControllerCommand) (state : ControllerState)
  deriving DecidableEq, Repr

/-- One operation applied to a state; `none` when the operation has no defined
result. The serial port of a driver-failed notification is delivered to the slot
only with `OZW_16`. -/
def step (ozw16 : Bool) (s : State) : Op → Option State
  | .startNetwork u p k st => some (startNetwork s u p k st).1
  | .stopNetwork u st => some (stopNetwork s u st).1
  | .factoryResetNetwork u => some (factoryResetNetwork s u).1
  | .addNode u sec st => some (addNode ozw16 s u sec st).1
  | .removeNode u st => some (removeNode ozw16 s u st).1
  | .removeFailedNode u n st => some (removeFailedNode s u n st).1
  | .cancelPendingOperation u st => some (cancelPendingOperation s u st).1
  | .onDriverReady h => some (onDriverReady s h)
  | .onDriverFailed p => if ozw16 then some (onDriverFailed_OZW16 s p) else onDriverFailed s
  | .onDriverRemoved h => some (onDriverRemoved s h)
  | .onNewNode h n => some (onNewNode s h n)
  | .onNodeAdded h n => some (onNodeAdded s h n)
  | .onNodeNaming h n => some (onNodeNaming s h n)
  | .onNodeRemoved h n => some (onNodeRemoved s h n)
  | .onValueRemoved h n i => some (onValueRemoved s h n i)
  | .onNodeProtocolInfoReceived h n => some (onNodeProtocolInfoReceived s h n)
  | .onNodeQueryComplete h n => some (onNodeQueryComplete s h n)
  | .onZWaveNotification h n c => some (onZWaveNotification s h n c)
  | .onControllerCommand h c st => some (onControllerCommand ozw16 s h c st)

/-- A sequence of operations applied in order. -/
def run (ozw16 : Bool) (s : State) : List Op → Option State
  | [] => some s
  | op :: ops => (step ozw16 s op).bind (fun s1 => run ozw16 s1 ops)

/-! ## Vocabulary of the theorems -/

/-- The reply returned in `res` is a new reply object that has finished with exactly
`status` and has no connection, and the reply objects that existed in `s` are as
they were. -/
def ImmediateReply (s : State) (res : State × Nat) (status : ZWaveError) : Prop :=
  res.2 = s.replies.length ∧
  res.1.replies = s.replies ++ [{ finishedWith := [status], connected := [] }]

/-- The last value emitted through `waitingForNodeAdditionChanged` for a network;
`none` when no value was emitted for it. -/
def additionLevel (events : List Event) (networkUuid : QUuid) : Option Bool :=
  events.foldl
    (fun acc e =>
      match e with
      | .waitingForNodeAdditionChanged u w => if u = networkUuid then some w else acc
      | _ => acc)
    none

/-- The last value emitted through `waitingForNodeRemovalChanged` for a network;
`none` when no value was emitted for it. -/
def removalLevel (events : List Event) (networkUuid : QUuid) : Option Bool :=
  events.foldl
    (fun acc e =>
      match e with
      | .waitingForNodeRemovalChanged u w => if u = networkUuid then some w else acc
      | _ => acc)
    none

/-- A state in which network `1` owns home id `7` and the reply `0` of an accepted
command is parked for it. -/
def parkedState : State :=
  { b := { m_options := true, m_serialPorts := [(1, "/dev/ttyX")], m_homeIds := [(1, 7)],
           m_pendingNetworkSetups := [], m_pendingControllerCommands := [(7, 0)],
           m_controllerCommand := .ControllerCommandNone },
    replies := [{ finishedWith := [], connected := [7] }],
    events := [.networkStarted 1],
    calls := [.AddDriver "/dev/ttyX", .RemoveFailedNode 7 5] }

/-- A state in which network `1` owns home id `7` and no command is outstanding. -/
def idleState : State :=
  { b := { m_options := true, m_serialPorts := [(1, "/dev/ttyX")], m_homeIds := [(1, 7)],
           m_pendingNetworkSetups := [], m_pendingControllerCommands := [],
           m_controllerCommand := .ControllerCommandNone },
    replies := [],
    events := [.networkStarted 1],
    calls := [.AddDriver "/dev/ttyX"] }

/-- The immediate outcome of a command operation called in state `s` for network
`networkUuid`, when the transport answers `status`: the reply `res.2` is a new one;
it has finished with the not-found error when the network has no handle, else with
the in-use error when a pending command exists for its handle, else with the backend
error when the transport refused, and else it has not finished; a pending command is
registered only in the last case, and then the handle has exactly the one entry
holding the new reply. -/
def FollowsPrecedence (s : State) (networkUuid : QUuid) (status : Bool)
    (res : State × Nat) : Prop :=
  res.2 = s.replies.length ∧
  finishedWith res.1 res.2 =
    (if QHash.contains s.b.m_homeIds networkUuid = false then [.ZWaveErrorNetworkUuidNotFound]
     else if QHash.contains s.b.m_pendingControllerCommands (homeId s networkUuid) = true
       then [.ZWaveErrorInUse]
     else if status = false then [.ZWaveErrorBackendError]
     else []) ∧
  res.1.b.m_pendingControllerCommands =
    (if QHash.contains s.b.m_homeIds networkUuid = true ∧
        QHash.contains s.b.m_pendingControllerCommands (homeId s networkUuid) = false ∧
        status = true
     then QHash.insert s.b.m_pendingControllerCommands (homeId s networkUuid) res.2
     else s.b.m_pendingControllerCommands) ∧
  res.1.b.m_pendingControllerCommands.filter (fun e => decide (e.1 = homeId s networkUuid)) =
    (if QHash.contains s.b.m_homeIds networkUuid = true ∧
        QHash.contains s.b.m_pendingControllerCommands (homeId s networkUuid) = false ∧
        status = true
     then [(homeId s networkUuid, res.2)]
     else s.b.m_pendingControllerCommands.filter (fun e => decide (e.1 = homeId s networkUuid)))

/-- The `startNetwork` calls for the networks `nets` (uuid, serial port, network key)
in order, each accepted by the transport. -/
def startAll (s : State) (nets : List (QUuid × String × String)) : State :=
  nets.foldl (fun t n => (startNetwork t n.1 n.2.1 n.2.2 true).1) s

/-- The DriverReady notifications carrying the handles `handles`, in order. -/
def readyAll (s : State) (handles : List Nat) : State :=
  handles.foldl onDriverReady s

/-- The condition under which a DriverReady notification keeps the handle map
injective: when a setup is pending, the reported home id is bound to no network
other than the one at the head of the pending setups. Every other operation
satisfies it. -/
def readyHandleFree (s : State) : Op → Bool
  | .onDriverReady h =>
    match s.b.m_pendingNetworkSetups with
    | [] => true
    | networkUuid :: _ => s.b.m_homeIds.all (fun e => decide (e.2 = h → e.1 = networkUuid))
  | _ => true

/-- A sequence of operations applied in order, stopping with `none` when a
DriverReady notification reports a home id that is bound to another network. -/
def runFree (ozw16 : Bool) (s : State) : List Op → Option State
  | [] => some s
  | op :: ops =>
    if readyHandleFree s op then (step ozw16 s op).bind (fun s1 => runFree ozw16 s1 ops)
    else none

/-- No two entries of the handle map hold the same handle under different uuids. -/
def HandlesInjective (m : List (QUuid × Nat)) : Prop :=
  ∀ e1 ∈ m, ∀ e2 ∈ m, e1.2 = e2.2 → e1.1 = e2.1

/-- The state reached by starting two networks, binding them to the handles `7` and
`8`, resetting the first and binding it again to `9`. -/
def reboundState : State :=
  { b := { m_options := true, m_serialPorts := [(2, "/dev/ttyB"), (1, "/dev/ttyA")],
           m_homeIds := [(1, 9), (2, 8)], m_pendingNetworkSetups := [],
           m_pendingControllerCommands := [],
           m_controllerCommand := .ControllerCommandNone },
    replies := [],
    events := [.networkStarted 1, .networkStarted 2, .networkStarted 1],
    calls := [.AddOptionString "NetworkKey" (networkKeyOption ""), .AddDriver "/dev/ttyA",
              .AddDriver "/dev/ttyB", .ResetController 7] }

/-- The invariant behind single resolution: every reply has finished at most once,
every reply held in the pending-command map exists and has not finished, and no reply
is held under two handles. -/
def RepliesOnce (replies : List ZWaveReply) (pending : List (Nat × Nat)) : Prop :=
  (∀ r ∈ replies, r.finishedWith.length ≤ 1) ∧
  (∀ e ∈ pending, ∃ r, replies[e.2]? = some r ∧ r.finishedWith = []) ∧
  (pending.map Prod.snd).Nodup

/-- The four command operations of the application. -/
def isCommand : Op → Bool
  | .addNode _ _ _ => true
  | .removeNode _ _ => true
  | .removeFailedNode _ _ _ => true
  | .cancelPendingOperation _ _ => true
  | _ => false

/-- The state after: network `1` started and bound to handle `7`; `addNode` accepted
(reply `0` parked); `addNode` again (reply `1`, in use); a Waiting notification
(reply `0` resolved); `removeNode` accepted (reply `2` parked); `cancelPendingOperation`
(reply `3`); a Failed notification (reply `2` resolved); a second Failed notification;
`removeFailedNode` accepted (reply `4` parked). -/
def correlatedState : State :=
  (run false State.init
    [.startNetwork 1 "/dev/ttyX" "" true, .onDriverReady 7, .addNode 1 false true,
     .addNode 1 false true,
     .onControllerCommand 7 .ControllerCommandNone .ControllerStateWaiting,
     .removeNode 1 true, .cancelPendingOperation 1 true,
     .onControllerCommand 7 .ControllerCommandNone .ControllerStateFailed,
     .onControllerCommand 7 .ControllerCommandNone .ControllerStateFailed,
     .removeFailedNode 1 5 true]).getD State.init

/-- The fixed table of the status notification codes: the signals a code stands for,
for the network `networkUuid` and the node `nodeId`. -/
def statusEvents (code : NotificationCode) (networkUuid : QUuid) (nodeId : Nat) : List Event :=
  match code with
  | .NotificationCodeDead =>
    [.nodeFailedStatus networkUuid nodeId true, .nodeReachableStatus networkUuid nodeId false]
  | .NotificationCodeTimeout => [.nodeReachableStatus networkUuid nodeId false]
  | .NotificationCodeAlive => [.nodeReachableStatus networkUuid nodeId true]
  | .NotificationCodeSleep => [.nodeSleepStatus networkUuid nodeId true]
  | .NotificationCodeAwake => [.nodeSleepStatus networkUuid nodeId false]
  | .NotificationCodeNoOperation => []
  | .NotificationCodeMsgComplete => []

/-- A manager whose read primitives all throw: no value and no node is known to it. -/
def throwingManager : Manager :=
  { GetValueAsBool := fun _ => .error "Invalid ValueID passed to GetValueAsBool",
    GetValueAsShort := fun _ => .error "Invalid ValueID passed to GetValueAsShort",
    GetValueAsByte := fun _ => .error "Invalid ValueID passed to GetValueAsByte",
    GetValueAsInt := fun _ => .error "Invalid ValueID passed to GetValueAsInt",
    GetValueListItems := fun _ => .error "Invalid ValueID passed to GetValueListItems",
    GetValueListSelection := fun _ => .error "Invalid ValueID passed to GetValueListSelection",
    GetValueAsFloat := fun _ => .error "Invalid ValueID passed to GetValueAsFloat",
    GetValueAsString := fun _ => .error "Invalid ValueID passed to GetValueAsString",
    GetValueHelp := fun _ => .error "Invalid ValueID passed to GetValueHelp",
    GetNodeStatistics := fun _ _ => .error "Invalid HomeId passed to GetDriver" }

/-- A manager that reports, for every enumerated value, the items `items`, the
selected string `selection` and the help text `help`. -/
def listManager (items : List String) (selection help : String) : Manager :=
  { throwingManager with
    GetValueListItems := fun _ => .ok items,
    GetValueListSelection := fun _ => .ok selection,
    GetValueHelp := fun _ => .ok help }

/-- Conversions that answer `false` and `0` for every payload; the enumerated branch
of `setValue` does not consult them. -/
def zeroConversions : QVariantConversions :=
  { toBool := fun _ => false, toUInt := fun _ => 0, toInt := fun _ => 0 }

/-- The raw signal metric `updateNodeLinkQuality` normalises: the `quint8` variable
`avg` with `OZW_16`, the `quint8` field `m_quality` without. -/
def rawSignalMetric (ozw16 : Bool) (nodeData : NodeData) : Int :=
  if ozw16 then rssiAverage nodeData else (nodeData.m_quality : Int) % 256

/-- A manager that answers every node-statistics read with `nodeData` and throws on
every value read. -/
def statisticsManager (nodeData : NodeData) : Manager :=
  { throwingManager with GetNodeStatistics := fun _ _ => .ok nodeData }

/-- A state in which the networks `1` and `2` own the home ids `7` and `8` and no
command is outstanding. -/
def twoNetworksState : State :=
  { b := { m_options := true, m_serialPorts := [(2, "/dev/ttyB"), (1, "/dev/ttyA")],
           m_homeIds := [(2, 8), (1, 7)], m_pendingNetworkSetups := [],
           m_pendingControllerCommands := [],
           m_controllerCommand := .ControllerCommandNone },
    replies := [],
    events := [.networkStarted 1, .networkStarted 2],
    calls := [.AddDriver "/dev/ttyA", .AddDriver "/dev/ttyB"] }

/-- The consecutive two-character groups of a string, in order. -/
def twoCharGroups : List Char → List (List Char)
  | a :: b :: rest => [a, b] :: twoCharGroups rest
  | [a] => [[a]]
  | [] => []

/-- The string built from the two-character groups of `networkKey`, each prefixed
with "0x" and joined by ", ". -/
def groupedNetworkKey (networkKey : String) : String :=
  String.mk
    (", ".toList.intercalate ((twoCharGroups networkKey.toList).map (fun g => "0x".toList ++ g)))

/-! ## Lemmas on lists, hashes and replies -/

theorem list_set_concat_length {α : Type} (l : List α) (x y : α) :
    (l ++ [x]).set l.length y = l ++ [y] := by
  induction l with
  | nil => rfl
  | cons a t ih => simp [List.set, ih]

theorem emitFinished_newReply (s : State) (e : ZWaveError) :
    emitFinished (newReply s).1 (newReply s).2 e
      = { s with replies := s.replies ++ [{ finishedWith := [e], connected := [] }] } := by
  simp [emitFinished, newReply, list_set_concat_length]

theorem finishReply_newReply (s : State) (e : ZWaveError) :
    finishReply (newReply s).1 (newReply s).2 e
      = { s with replies := s.replies ++ [{ finishedWith := [e], connected := [] }] } :=
  emitFinished_newReply s e

theorem QHash.contains_of_get? {κ ν : Type} [DecidableEq κ] {m : List (κ × ν)} {k : κ} {v : ν}
    (h : QHash.get? m k = some v) : QHash.contains m k = true := by
  simp [QHash.contains, h]

theorem QHash.value_of_get? {κ ν : Type} [DecidableEq κ] {m : List (κ × ν)} {k : κ} {v d : ν}
    (h : QHash.get? m k = some v) : QHash.value m k d = v := by
  simp [QHash.value, h]

theorem QHash.filter_insert_self (m : List (Nat × Nat)) (k v : Nat) :
    (QHash.insert m k v).filter (fun e => decide (e.1 = k)) = [(k, v)] := by
  simp only [QHash.insert, QHash.remove, List.filter_cons, decide_True, if_true]
  rw [List.filter_filter]
  simp

theorem QHash.mem_of_get? {κ ν : Type} [DecidableEq κ] {m : List (κ × ν)} {k : κ} {v : ν}
    (h : QHash.get? m k = some v) : (k, v) ∈ m := by
  unfold QHash.get? at h
  cases hf : m.find? (fun e => decide (e.1 = k)) with
  | none => simp [hf] at h
  | some e =>
    have h1 := List.find?_some hf
    have h2 := List.mem_of_find?_eq_some hf
    simp only [hf, Option.map_some, Option.some.injEq] at h
    have h3 : e.1 = k := by simpa using h1
    have : e = (k, v) := by
      cases e
      simp_all
    exact this ▸ h2

theorem QHash.key_of_unique {κ ν : Type} [DecidableEq ν] {m : List (κ × ν)} {k d : κ} {v : ν}
    (hmem : (k, v) ∈ m) (huniq : ∀ e ∈ m, e.2 = v → e.1 = k) : QHash.key m v d = k := by
  cases hf : m.find? (fun e => decide (e.2 = v)) with
  | none =>
    have := List.find?_eq_none.1 hf (k, v) hmem
    simp at this
  | some e =>
    have h1 := List.find?_some hf
    have h2 := List.mem_of_find?_eq_some hf
    simp [QHash.key, hf, huniq e h2 (by simpa using h1)]

theorem QHash.get?_insert_self {κ ν : Type} [DecidableEq κ] (m : List (κ × ν)) (k : κ) (v : ν) :
    QHash.get? (QHash.insert m k v) k = some v := by
  simp [QHash.get?, QHash.insert]

theorem QHash.contains_remove_self {κ ν : Type} [DecidableEq κ] (m : List (κ × ν)) (k : κ) :
    QHash.contains (QHash.remove m k) k = false := by
  simp only [QHash.contains, QHash.get?, QHash.remove, Option.isSome_map']
  cases hf : (m.filter (fun e => decide (e.1 ≠ k))).find? (fun e => decide (e.1 = k)) with
  | none => rfl
  | some e =>
    have h1 := List.find?_some hf
    have h2 := List.mem_of_find?_eq_some hf
    simp only [List.mem_filter] at h2
    simp_all

theorem QHash.remove_remove {κ ν : Type} [DecidableEq κ] (m : List (κ × ν)) (k : κ) :
    QHash.remove (QHash.remove m k) k = QHash.remove m k := by
  simp [QHash.remove, List.filter_filter]

theorem QHash.remove_insert_self {κ ν : Type} [DecidableEq κ] (m : List (κ × ν)) (k : κ)
    (v : ν) : QHash.remove (QHash.insert m k v) k = QHash.remove m k := by
  simp [QHash.remove, QHash.insert, List.filter_filter]

theorem QHash.remove_of_not_mem {κ ν : Type} [DecidableEq κ] (m : List (κ × ν)) (k : κ)
    (h : ∀ e ∈ m, e.1 ≠ k) : QHash.remove m k = m := by
  simp only [QHash.remove, List.filter_eq_self]
  intro e he
  simpa using h e he

theorem QHash.get?_of_mem_nodup {κ ν : Type} [DecidableEq κ] {m : List (κ × ν)} {k : κ} {v : ν}
    (hnd : (m.map Prod.fst).Nodup) (hmem : (k, v) ∈ m) : QHash.get? m k = some v := by
  cases hf : m.find? (fun e => decide (e.1 = k)) with
  | none =>
    have := List.find?_eq_none.1 hf (k, v) hmem
    simp at this
  | some e =>
    have h1 := List.find?_some hf
    have h2 := List.mem_of_find?_eq_some hf
    have h3 : e = (k, v) :=
      List.inj_on_of_nodup_map hnd h2 hmem (by simpa using h1)
    simp [QHash.get?, hf, h3]

theorem QHash.key_of_mem_nodup {κ ν : Type} [DecidableEq ν] {m : List (κ × ν)} {k d : κ} {v : ν}
    (hnd : (m.map Prod.snd).Nodup) (hmem : (k, v) ∈ m) : QHash.key m v d = k := by
  apply QHash.key_of_unique hmem
  intro e he hev
  have h3 : e = (k, v) := List.inj_on_of_nodup_map hnd he hmem (by simpa using hev)
  rw [h3]

theorem QHash.remove_of_not_contains {κ ν : Type} [DecidableEq κ] (m : List (κ × ν)) (k : κ)
    (h : QHash.contains m k = false) : QHash.remove m k = m := by
  apply QHash.remove_of_not_mem
  intro e he heq
  have hne : m.find? (fun x => decide (x.1 = k)) = none := by
    simpa [QHash.contains, QHash.get?] using h
  have := List.find?_eq_none.1 hne e he
  simp [heq] at this

theorem QHash.foldl_remove_sublist {κ ν : Type} [DecidableEq κ] (ks : List κ) :
    ∀ m : List (κ × ν), (ks.foldl QHash.remove m).Sublist m := by
  induction ks with
  | nil => intro m; exact List.Sublist.refl m
  | cons k ks ih =>
    intro m
    exact (ih (QHash.remove m k)).trans (List.filter_sublist m)

/-! ## C1: a command request on a busy handle -/

/-- C1. When network `networkUuid` has the transport handle `h` and a pending command
exists for `h`, each of `addNode`, `removeNode` and `removeFailedNode` returns a new
reply resolved at once with the in-use error, issues no transport call, emits no
signal and leaves the backend (handle map, pending setups, pending-command map,
remembered command kind) and the outstanding replies unchanged. -/
theorem C1_busy_handle_rejected (ozw16 : Bool) (s : State) (networkUuid : QUuid) (h : Nat)
    (useSecurity : Bool) (nodeId : Nat) (status : Bool)
    (hh : QHash.get? s.b.m_homeIds networkUuid = some h)
    (hp : QHash.contains s.b.m_pendingControllerCommands h = true) :
    ∀ res ∈ [addNode ozw16 s networkUuid useSecurity status,
             removeNode ozw16 s networkUuid status,
             removeFailedNode s networkUuid nodeId status],
      ImmediateReply s res .ZWaveErrorInUse ∧ res.1.b = s.b ∧ res.1.calls = s.calls ∧
        res.1.events = s.events := by
  have hc := QHash.contains_of_get? hh
  have hv : QHash.value s.b.m_homeIds networkUuid 0 = h := QHash.value_of_get? hh
  have key : ∀ res : State × Nat,
      res = ({ s with replies := s.replies ++
                [{ finishedWith := [.ZWaveErrorInUse], connected := [] }] }, s.replies.length) →
      ImmediateReply s res .ZWaveErrorInUse ∧ res.1.b = s.b ∧ res.1.calls = s.calls ∧
        res.1.events = s.events := by
    intro res hres
    subst hres
    simp [ImmediateReply]
  intro res hres
  simp only [List.mem_cons, List.mem_singleton, List.not_mem_nil, or_false] at hres
  apply key
  rcases hres with hres | hres | hres
  · rw [hres]
    simp only [addNode, finishReply_newReply, emitFinished_newReply]
    simp [newReply, hc, hv, hp]
  · rw [hres]
    simp only [removeNode, finishReply_newReply, emitFinished_newReply]
    simp [newReply, hc, hv, hp]
  · rw [hres]
    simp only [removeFailedNode, finishReply_newReply, emitFinished_newReply]
    simp [newReply, hc, hv, hp]

/-- Witness of C1 on `parkedState`: network `1` owns handle `7`, on which reply `0`
is parked. -/
theorem C1_busy_handle_rejected_witness :
    QHash.get? parkedState.b.m_homeIds 1 = some 7 ∧
    QHash.contains parkedState.b.m_pendingControllerCommands 7 = true ∧
    ∀ res ∈ [addNode false parkedState 1 true true,
             removeNode false parkedState 1 true,
             removeFailedNode parkedState 1 5 true],
      ImmediateReply parkedState res .ZWaveErrorInUse ∧ res.1.b = parkedState.b ∧
        res.1.calls = parkedState.calls ∧ res.1.events = parkedState.events :=
  ⟨by decide, by decide,
   C1_busy_handle_rejected false parkedState 1 7 true 5 true (by decide) (by decide)⟩

/-! ## C2: precedence of the immediate outcomes -/

/-- C2. In every state and for every answer of the transport, the immediate outcome
of `addNode`, `removeNode` and `removeFailedNode` follows the precedence not-found,
in-use, backend error; in these three cases no pending command is registered, and
otherwise the reply is left unresolved and exactly one pending command holding it is
registered for the handle. -/
theorem C2_outcome_precedence (ozw16 : Bool) (s : State) (networkUuid : QUuid)
    (useSecurity : Bool) (nodeId : Nat) (status : Bool) :
    FollowsPrecedence s networkUuid status (addNode ozw16 s networkUuid useSecurity status) ∧
    FollowsPrecedence s networkUuid status (removeNode ozw16 s networkUuid status) ∧
    FollowsPrecedence s networkUuid status (removeFailedNode s networkUuid nodeId status) := by
  refine ⟨?_, ?_, ?_⟩ <;>
  · unfold FollowsPrecedence
    cases hc : QHash.contains s.b.m_homeIds networkUuid <;>
    cases hp : QHash.contains s.b.m_pendingControllerCommands (homeId s networkUuid) <;>
    cases status <;> cases ozw16 <;>
    simp only [homeId] at hp <;>
    simp [addNode, removeNode, removeFailedNode, homeId, finishReply, emitFinished, newReply,
      parkReply, startReply, connectFinished, call, list_set_concat_length, finishedWith, hc, hp,
      QHash.filter_insert_self]

/-! ## C3: pending setups are bound first-in first-out -/

theorem startAll_spec (nets : List (QUuid × String × String)) :
    ∀ s : State,
      (startAll s nets).b.m_pendingNetworkSetups
          = s.b.m_pendingNetworkSetups ++ nets.map Prod.fst ∧
        (startAll s nets).b.m_homeIds = s.b.m_homeIds ∧
        (startAll s nets).events = s.events := by
  induction nets with
  | nil => intro s; simp [startAll]
  | cons n ns ih =>
    intro s
    have h := ih (startNetwork s n.1 n.2.1 n.2.2 true).1
    simp only [startAll, List.foldl_cons] at h ⊢
    rw [h.1, h.2.1, h.2.2]
    cases hopt : s.b.m_options <;> simp [startNetwork, initOZW, call, hopt]

theorem readyAll_spec (pairs : List (QUuid × Nat)) :
    ∀ (s : State) (rest : List QUuid),
      s.b.m_pendingNetworkSetups = pairs.map Prod.fst ++ rest →
      (pairs.map Prod.fst).Nodup →
      (pairs.map Prod.snd).Nodup →
      (∀ p ∈ pairs, ∀ e ∈ s.b.m_homeIds, e.1 ≠ p.1 ∧ e.2 ≠ p.2) →
      (readyAll s (pairs.map Prod.snd)).b.m_pendingNetworkSetups = rest ∧
        (readyAll s (pairs.map Prod.snd)).b.m_homeIds = pairs.reverse ++ s.b.m_homeIds ∧
        (readyAll s (pairs.map Prod.snd)).events
          = s.events ++ pairs.map (fun p => Event.networkStarted p.1) := by
  induction pairs with
  | nil => intro s rest h _ _ _; simpa [readyAll] using h
  | cons p ps ih =>
    intro s rest hpend hk hv hfresh
    obtain ⟨a, h⟩ := p
    simp only [List.map_cons, List.nodup_cons] at hk hv
    have hrem : QHash.remove s.b.m_homeIds a = s.b.m_homeIds :=
      QHash.remove_of_not_mem _ _ (fun e he => (hfresh (a, h) (List.mem_cons_self _ _) e he).1)
    have hstep : onDriverReady s h =
        { s with b := { s.b with m_pendingNetworkSetups := ps.map Prod.fst ++ rest,
                                 m_homeIds := (a, h) :: s.b.m_homeIds },
                 events := s.events ++ [.networkStarted a] } := by
      simp [onDriverReady, hpend, emit, QHash.insert, hrem, QHash.key]
    have h1 := ih (onDriverReady s h) rest (by rw [hstep]) hk.2 hv.2 (by
      intro p hp e he
      rw [hstep] at he
      simp only [List.mem_cons] at he
      rcases he with he | he
      · subst he
        constructor
        · intro heq
          exact hk.1 (List.mem_map.2 ⟨p, hp, heq.symm⟩)
        · intro heq
          exact hv.1 (List.mem_map.2 ⟨p, hp, heq.symm⟩)
      · exact hfresh p (List.mem_cons_of_mem _ hp) e he)
    simp only [readyAll, List.map_cons, List.foldl_cons] at h1 ⊢
    rw [h1.1, h1.2.1, h1.2.2, hstep]
    simp

/-- C3. Starting from a backend with no networks, let the networks `nets` with
pairwise distinct uuids be started (each `startNetwork` accepted by the transport) and
let DriverReady notifications with pairwise distinct handles `handles` follow, one per
network. After the first `k` notifications the signals emitted are exactly
`networkStarted` for the first `k` uuids in order, the pending setups are the
remaining uuids in order, and each of the first `k` uuids is bound to the handle at
its position (`homeId` returns it, and the reverse lookup of the handle returns the
uuid). With `k` the number of networks the pending list is empty and every network
is bound. -/
theorem C3_fifo_binding (nets : List (QUuid × String × String)) (handles : List Nat) (k : Nat)
    (hids : (nets.map Prod.fst).Nodup) (hhandles : handles.Nodup)
    (hlen : handles.length = nets.length) :
    let sk := readyAll (startAll State.init nets) (handles.take k)
    sk.events = (nets.take k).map (fun n => Event.networkStarted n.1) ∧
    sk.b.m_pendingNetworkSetups = (nets.drop k).map Prod.fst ∧
    (∀ p ∈ (List.zip (nets.map Prod.fst) handles).take k,
      homeId sk p.1 = p.2 ∧ QHash.key sk.b.m_homeIds p.2 0 = p.1) ∧
    (nets.length ≤ k → sk.b.m_pendingNetworkSetups = []) := by
  intro sk
  have hstart := startAll_spec nets State.init
  have hfst : ((List.zip (nets.map Prod.fst) handles).take k).map Prod.fst
      = (nets.map Prod.fst).take k := by
    rw [List.map_take, List.map_fst_zip]
    simp [hlen]
  have hsnd : ((List.zip (nets.map Prod.fst) handles).take k).map Prod.snd
      = handles.take k := by
    rw [List.map_take, List.map_snd_zip]
    simp [hlen]
  have hspec := readyAll_spec ((List.zip (nets.map Prod.fst) handles).take k)
    (startAll State.init nets) ((nets.map Prod.fst).drop k)
    (by rw [hstart.1, hfst]; simp [State.init, Backend.init])
    (by rw [hfst]; exact hids.sublist (List.take_sublist _ _))
    (by rw [hsnd]; exact hhandles.sublist (List.take_sublist _ _))
    (by rw [hstart.2.1]; simp [State.init, Backend.init])
  rw [hsnd] at hspec
  obtain ⟨hp, hm, he⟩ := hspec
  have hm1 : sk.b.m_homeIds = ((List.zip (nets.map Prod.fst) handles).take k).reverse := by
    rw [hm, hstart.2.1]
    simp [State.init, Backend.init]
  refine ⟨?_, ?_, ?_, ?_⟩
  · rw [he, hstart.2.2]
    have : ((List.zip (nets.map Prod.fst) handles).take k).map
        (fun p => Event.networkStarted p.1)
        = (((List.zip (nets.map Prod.fst) handles).take k).map Prod.fst).map
            Event.networkStarted := by
      rw [List.map_map]
      rfl
    rw [this, hfst, ← List.map_take, List.map_map]
    simp only [State.init, List.nil_append]
    rfl
  · rw [hp, List.map_drop]
  · intro p hpmem
    have hmem : (p.1, p.2) ∈ sk.b.m_homeIds := by
      rw [hm1]
      exact List.mem_reverse.2 hpmem
    have hnd1 : (sk.b.m_homeIds.map Prod.fst).Nodup := by
      rw [hm1, List.map_reverse, List.nodup_reverse, hfst]
      exact hids.sublist (List.take_sublist _ _)
    have hnd2 : (sk.b.m_homeIds.map Prod.snd).Nodup := by
      rw [hm1, List.map_reverse, List.nodup_reverse, hsnd]
      exact hhandles.sublist (List.take_sublist _ _)
    exact ⟨QHash.value_of_get? (QHash.get?_of_mem_nodup hnd1 hmem),
      QHash.key_of_mem_nodup hnd2 hmem⟩
  · intro hk
    rw [hp]
    simp [List.drop_eq_nil_iff, hk]

/-- Witness of C3: network `1` started on "/dev/ttyX", DriverReady with handle `7`;
then `homeId(1) = 7`. -/
theorem C3_fifo_binding_witness :
    ([((1 : QUuid), "/dev/ttyX", "")].map Prod.fst).Nodup ∧ [7].Nodup ∧
    [7].length = [((1 : QUuid), "/dev/ttyX", "")].length ∧
    (let sk := readyAll (startAll State.init [(1, "/dev/ttyX", "")]) ([7].take 1)
     sk.events = ([((1 : QUuid), "/dev/ttyX", "")].take 1).map
        (fun n => Event.networkStarted n.1) ∧
     sk.b.m_pendingNetworkSetups = ([((1 : QUuid), "/dev/ttyX", "")].drop 1).map Prod.fst ∧
     (∀ p ∈ (List.zip ([((1 : QUuid), "/dev/ttyX", "")].map Prod.fst) [7]).take 1,
       homeId sk p.1 = p.2 ∧ QHash.key sk.b.m_homeIds p.2 0 = p.1) ∧
     ([((1 : QUuid), "/dev/ttyX", "")].length ≤ 1 → sk.b.m_pendingNetworkSetups = [])) :=
  ⟨by decide, by decide, by decide,
   C3_fifo_binding [(1, "/dev/ttyX", "")] [7] 1 (by decide) (by decide) (by decide)⟩

/-! ## C4: injectivity of the handle map -/

/-- C4 fails as stated: two networks are started and both DriverReady notifications
carry the handle `7`. In both build variants the networks `1` and `2` are then both
bound to `7`, and the reverse lookup of `homeId(1)` and of `homeId(2)` is one and the
same uuid. -/
theorem C4_counterexample :
    (run true State.init
        [.startNetwork 1 "/dev/ttyA" "" true, .startNetwork 2 "/dev/ttyB" "" true,
         .onDriverReady 7, .onDriverReady 7]).map
      (fun s => (QHash.contains s.b.m_homeIds 1, QHash.contains s.b.m_homeIds 2,
        homeId s 1, homeId s 2,
        decide (QHash.key s.b.m_homeIds (homeId s 1) 0 = QHash.key s.b.m_homeIds (homeId s 2) 0)))
      = some (true, true, 7, 7, true) ∧
    (run false State.init
        [.startNetwork 1 "/dev/ttyA" "" true, .startNetwork 2 "/dev/ttyB" "" true,
         .onDriverReady 7, .onDriverReady 7]).map
      (fun s => (QHash.contains s.b.m_homeIds 1, QHash.contains s.b.m_homeIds 2,
        homeId s 1, homeId s 2,
        decide (QHash.key s.b.m_homeIds (homeId s 1) 0 = QHash.key s.b.m_homeIds (homeId s 2) 0)))
      = some (true, true, 7, 7, true) := by
  decide

theorem emitFinished_homeIds (s : State) (r : Nat) (e : ZWaveError) :
    (emitFinished s r e).b.m_homeIds = s.b.m_homeIds := by
  unfold emitFinished
  split <;> rfl

theorem connectFinished_b (s : State) (r h : Nat) : (connectFinished s r h).b = s.b := by
  unfold connectFinished
  split <;> rfl

theorem finishPending_homeIds (s : State) (h : Nat) (e : ZWaveError) :
    (finishPending s h e).b.m_homeIds = s.b.m_homeIds := by
  unfold finishPending
  split
  · rfl
  · simp [finishReply, emitFinished_homeIds]

theorem onControllerCommand_homeIds (ozw16 : Bool) (s : State) (h : Nat)
    (c : ControllerCommand) (st : ControllerState) :
    (onControllerCommand ozw16 s h c st).b.m_homeIds = s.b.m_homeIds := by
  simp only [onControllerCommand]
  split
  · rfl
  · split <;> (repeat' split) <;> cases ozw16 <;>
      simp [resetControllerCommand, emit, finishPending_homeIds]

theorem emitForNetwork_b (s : State) (h : Nat) (e : QUuid → Event) :
    (emitForNetwork s h e).b = s.b := by
  unfold emitForNetwork
  split <;> rfl

/-- The handle map after one operation: only `onDriverReady` and `stopNetwork`
change it. -/
theorem step_homeIds (ozw16 : Bool) (s t : State) (op : Op) (h : step ozw16 s op = some t) :
    t.b.m_homeIds =
      (match op with
       | .onDriverReady hid =>
         (match s.b.m_pendingNetworkSetups with
          | [] => s.b.m_homeIds
          | u :: _ => QHash.insert s.b.m_homeIds u hid)
       | .stopNetwork u _ =>
         if QHash.contains s.b.m_serialPorts u then QHash.remove s.b.m_homeIds u
         else s.b.m_homeIds
       | _ => s.b.m_homeIds) := by
  cases op <;> simp only [step, Option.some.injEq] at h <;> try subst h
  case startNetwork u p k st =>
    cases st <;> cases hopt : s.b.m_options <;> simp [startNetwork, initOZW, call, hopt]
  case stopNetwork u st =>
    cases hc : QHash.contains s.b.m_serialPorts u
    · simp [stopNetwork, hc]
    · simp only [stopNetwork, hc]
      simp only [Bool.not_true, Bool.false_eq_true, if_false, if_true]
      split <;> simp [deinitOZW, call]
  case factoryResetNetwork u =>
    simp only [factoryResetNetwork]
    split <;> simp [call]
  case addNode u sec st =>
    simp only [addNode]
    (repeat' split) <;> cases ozw16 <;>
      simp [finishReply, emitFinished_homeIds, newReply, parkReply, startReply,
        connectFinished_b, call]
  case removeNode u st =>
    simp only [removeNode]
    (repeat' split) <;> cases ozw16 <;>
      simp [finishReply, emitFinished_homeIds, newReply, parkReply, startReply,
        connectFinished_b, call]
  case removeFailedNode u n st =>
    simp only [removeFailedNode]
    (repeat' split) <;>
      simp [finishReply, emitFinished_homeIds, newReply, parkReply, startReply,
        connectFinished_b, call]
  case cancelPendingOperation u st =>
    simp only [cancelPendingOperation]
    (repeat' split) <;> simp [finishReply, emitFinished_homeIds, newReply, call]
  case onDriverReady hid =>
    simp only [onDriverReady]
    split <;> simp_all [emit]
  case onDriverFailed p =>
    cases ozw16
    · simp only [Bool.false_eq_true, if_false, onDriverFailed] at h
      split at h
      · simp at h
      · simp only [Option.some.injEq] at h
        subst h
        simp [emit]
    · simp only [if_true, Option.some.injEq] at h
      subst h
      simp only [onDriverFailed_OZW16]
      split <;> simp [emit]
  case onDriverRemoved hid => rfl
  case onNewNode hid n => simp [onNewNode, emitForNetwork_b]
  case onNodeAdded hid n => simp [onNodeAdded, emitForNetwork_b]
  case onNodeNaming hid n => simp [onNodeNaming, emitForNetwork_b]
  case onNodeRemoved hid n => simp [onNodeRemoved, emitForNetwork_b]
  case onValueRemoved hid n i => simp [onValueRemoved, emitForNetwork_b]
  case onNodeProtocolInfoReceived hid n => simp [onNodeProtocolInfoReceived, emitForNetwork_b]
  case onNodeQueryComplete hid n => simp [onNodeQueryComplete, emitForNetwork_b]
  case onZWaveNotification hid n c =>
    simp only [onZWaveNotification, addDriverTimeout]
    (repeat' split) <;> simp [emit, call]
  case onControllerCommand hid c st => simp [onControllerCommand_homeIds]

theorem handlesInjective_remove {m : List (QUuid × Nat)} (h : HandlesInjective m) (k : QUuid) :
    HandlesInjective (QHash.remove m k) := by
  intro e1 h1 e2 h2
  exact h e1 (List.mem_of_mem_filter h1) e2 (List.mem_of_mem_filter h2)

theorem handlesInjective_insert {m : List (QUuid × Nat)} (h : HandlesInjective m) (a : QUuid)
    (hid : Nat) (hfree : ∀ e ∈ m, e.2 = hid → e.1 = a) :
    HandlesInjective (QHash.insert m a hid) := by
  have hne : ∀ e ∈ QHash.remove m a, e.2 ≠ hid := by
    intro e he heq
    have h1 := hfree e (List.mem_of_mem_filter he) heq
    have h2 := (List.mem_filter.1 he).2
    simp [h1] at h2
  intro e1 h1 e2 h2 heq
  simp only [QHash.insert, List.mem_cons] at h1 h2
  rcases h1 with h1 | h1 <;> rcases h2 with h2 | h2
  · rw [h1, h2]
  · subst h1
    exact absurd heq.symm (hne e2 h2)
  · subst h2
    exact absurd heq (hne e1 h1)
  · exact handlesInjective_remove h a e1 h1 e2 h2 heq

theorem step_injective (ozw16 : Bool) (s t : State) (op : Op)
    (hfree : readyHandleFree s op = true) (hstep : step ozw16 s op = some t)
    (hinj : HandlesInjective s.b.m_homeIds) : HandlesInjective t.b.m_homeIds := by
  rw [step_homeIds ozw16 s t op hstep]
  cases op <;> try exact hinj
  case stopNetwork u st =>
    simp only
    split
    · exact handlesInjective_remove hinj u
    · exact hinj
  case onDriverReady hid =>
    simp only [readyHandleFree] at hfree
    cases hp : s.b.m_pendingNetworkSetups with
    | nil => exact hinj
    | cons u rest =>
      simp only [hp, List.all_eq_true, decide_eq_true_eq] at hfree
      exact handlesInjective_insert hinj u hid hfree

theorem runFree_injective (ozw16 : Bool) (ops : List Op) :
    ∀ s t : State, runFree ozw16 s ops = some t → HandlesInjective s.b.m_homeIds →
      HandlesInjective t.b.m_homeIds := by
  induction ops with
  | nil =>
    intro s t h hinj
    simp only [runFree, Option.some.injEq] at h
    exact h ▸ hinj
  | cons op ops ih =>
    intro s t h hinj
    simp only [runFree] at h
    split at h
    · cases hstep : step ozw16 s op with
      | none => simp [hstep] at h
      | some s1 =>
        simp only [hstep, Option.some_bind] at h
        exact ih s1 t h (step_injective ozw16 s s1 op (by assumption) hstep hinj)
    · simp at h

/-- C4 as amended. In every state reached from the initial backend by a sequence of
calls and notifications in which every DriverReady notification that finds a pending
setup carries a handle bound to no network other than the head of the pending setups,
the handle map is injective: no two uuids are bound to the same handle, and the
reverse lookup `m_homeIds.key(homeId(A))` returns `A` for every `A` that has a
handle. -/
theorem C4_handles_injective (ozw16 : Bool) (ops : List Op) (s : State)
    (hrun : runFree ozw16 State.init ops = some s) :
    HandlesInjective s.b.m_homeIds ∧
    ∀ networkUuid : QUuid, QHash.contains s.b.m_homeIds networkUuid = true →
      QHash.key s.b.m_homeIds (homeId s networkUuid) 0 = networkUuid := by
  have hinj : HandlesInjective s.b.m_homeIds :=
    runFree_injective ozw16 ops State.init s hrun (by
      intro e1 h1
      simp [State.init, Backend.init] at h1)
  refine ⟨hinj, ?_⟩
  intro u hc
  cases hg : QHash.get? s.b.m_homeIds u with
  | none => simp [QHash.contains, hg] at hc
  | some h =>
    have hmem := QHash.mem_of_get? hg
    rw [homeId, QHash.value_of_get? hg]
    exact QHash.key_of_unique hmem (fun e he heq => hinj e he (u, h) hmem heq)

/-- Witness of C4: two networks bound to `7` and `8`, the first reset and bound again
to `9`. -/
theorem C4_handles_injective_witness :
    runFree false State.init
        [.startNetwork 1 "/dev/ttyA" "" true, .startNetwork 2 "/dev/ttyB" "" true,
         .onDriverReady 7, .onDriverReady 8, .factoryResetNetwork 1, .onDriverReady 9]
      = some reboundState ∧
    (HandlesInjective reboundState.b.m_homeIds ∧
     ∀ networkUuid : QUuid, QHash.contains reboundState.b.m_homeIds networkUuid = true →
       QHash.key reboundState.b.m_homeIds (homeId reboundState networkUuid) 0 = networkUuid) :=
  ⟨by decide,
   C4_handles_injective false
     [.startNetwork 1 "/dev/ttyA" "" true, .startNetwork 2 "/dev/ttyB" "" true,
      .onDriverReady 7, .onDriverReady 8, .factoryResetNetwork 1, .onDriverReady 9]
     reboundState (by decide)⟩

/-! ## C5: no reply is resolved twice -/

/-- The replies and the pending-command map after a command operation: either a new
reply that finished at once was added and the map is as before, or a new unfinished
reply was added and entered under a handle that had no entry. -/
theorem command_shape (ozw16 : Bool) (s t : State) (op : Op) (hc : isCommand op = true)
    (hstep : step ozw16 s op = some t) :
    (∃ e, t.replies = s.replies ++ [{ finishedWith := [e], connected := [] }] ∧
        t.b.m_pendingControllerCommands = s.b.m_pendingControllerCommands) ∨
    (∃ h, QHash.contains s.b.m_pendingControllerCommands h = false ∧
        t.replies = s.replies ++ [{ finishedWith := [], connected := [h] }] ∧
        t.b.m_pendingControllerCommands
          = QHash.insert s.b.m_pendingControllerCommands h s.replies.length) := by
  cases op <;> simp only [isCommand, Bool.false_eq_true] at hc <;>
    simp only [step, Option.some.injEq] at hstep <;> subst hstep
  case addNode u sec st =>
    cases hc1 : QHash.contains s.b.m_homeIds u <;>
    cases hp : QHash.contains s.b.m_pendingControllerCommands (QHash.value s.b.m_homeIds u 0) <;>
    cases st <;> cases ozw16 <;>
    simp [addNode, finishReply, emitFinished, newReply, parkReply, startReply, connectFinished,
      call, list_set_concat_length, hc1, hp] <;>
    exact ⟨_, hp, rfl, rfl⟩
  case removeNode u st =>
    cases hc1 : QHash.contains s.b.m_homeIds u <;>
    cases hp : QHash.contains s.b.m_pendingControllerCommands (QHash.value s.b.m_homeIds u 0) <;>
    cases st <;> cases ozw16 <;>
    simp [removeNode, finishReply, emitFinished, newReply, parkReply, startReply,
      connectFinished, call, list_set_concat_length, hc1, hp] <;>
    exact ⟨_, hp, rfl, rfl⟩
  case removeFailedNode u n st =>
    cases hc1 : QHash.contains s.b.m_homeIds u <;>
    cases hp : QHash.contains s.b.m_pendingControllerCommands (QHash.value s.b.m_homeIds u 0) <;>
    cases st <;>
    simp [removeFailedNode, finishReply, emitFinished, newReply, parkReply, startReply,
      connectFinished, call, list_set_concat_length, hc1, hp]
    exact ⟨_, hp, rfl, rfl⟩
  case cancelPendingOperation u st =>
    cases hc1 : QHash.contains s.b.m_homeIds u <;> cases st <;>
    simp [cancelPendingOperation, finishReply, emitFinished, newReply, call,
      list_set_concat_length, hc1]

theorem repliesOnce_immediate {replies : List ZWaveReply} {pending : List (Nat × Nat)}
    (h : RepliesOnce replies pending) (e : ZWaveError) :
    RepliesOnce (replies ++ [{ finishedWith := [e], connected := [] }]) pending := by
  obtain ⟨h1, h2, h3⟩ := h
  refine ⟨?_, ?_, h3⟩
  · intro r hr
    simp only [List.mem_append, List.mem_singleton] at hr
    rcases hr with hr | hr
    · exact h1 r hr
    · subst hr
      simp
  · intro p hp
    obtain ⟨r, hr, hf⟩ := h2 p hp
    have hlt : p.2 < replies.length := (List.getElem?_eq_some_iff.1 hr).1
    exact ⟨r, by rw [List.getElem?_append_left hlt]; exact hr, hf⟩

theorem repliesOnce_park {replies : List ZWaveReply} {pending : List (Nat × Nat)}
    (h : RepliesOnce replies pending) (hid : Nat)
    (hfree : QHash.contains pending hid = false) :
    RepliesOnce (replies ++ [{ finishedWith := [], connected := [hid] }])
      (QHash.insert pending hid replies.length) := by
  obtain ⟨h1, h2, h3⟩ := h
  rw [QHash.insert, QHash.remove_of_not_contains pending hid hfree]
  refine ⟨?_, ?_, ?_⟩
  · intro r hr
    simp only [List.mem_append, List.mem_singleton] at hr
    rcases hr with hr | hr
    · exact h1 r hr
    · subst hr
      simp
  · intro p hp
    simp only [List.mem_cons] at hp
    rcases hp with hp | hp
    · subst hp
      exact ⟨{ finishedWith := [], connected := [hid] }, by simp, rfl⟩
    · obtain ⟨r, hr, hf⟩ := h2 p hp
      have hlt : p.2 < replies.length := (List.getElem?_eq_some_iff.1 hr).1
      exact ⟨r, by rw [List.getElem?_append_left hlt]; exact hr, hf⟩
  · simp only [List.map_cons, List.nodup_cons]
    refine ⟨?_, h3⟩
    intro hmem
    obtain ⟨p, hp, hpe⟩ := List.mem_map.1 hmem
    obtain ⟨r, hr, _⟩ := h2 p hp
    have hlt : p.2 < replies.length := (List.getElem?_eq_some_iff.1 hr).1
    omega

theorem repliesOnce_finishPending {s : State}
    (h : RepliesOnce s.replies s.b.m_pendingControllerCommands) (hid : Nat) (e : ZWaveError) :
    RepliesOnce (finishPending s hid e).replies
      (finishPending s hid e).b.m_pendingControllerCommands := by
  unfold OpenZWaveBackend.finishPending
  cases hg : QHash.get? s.b.m_pendingControllerCommands hid with
  | none => exact h
  | some reply =>
    obtain ⟨h1, h2, h3⟩ := h
    have hmem := QHash.mem_of_get? hg
    obtain ⟨r, hr, hf⟩ := h2 (hid, reply) hmem
    simp only at hr
    simp only [finishReply, emitFinished, hr]
    have hsub : (r.connected.foldl QHash.remove
        (QHash.remove s.b.m_pendingControllerCommands hid)).Sublist
        s.b.m_pendingControllerCommands :=
      (QHash.foldl_remove_sublist r.connected _).trans (List.filter_sublist _)
    have hsub1 : ∀ p ∈ r.connected.foldl QHash.remove
        (QHash.remove s.b.m_pendingControllerCommands hid), p.1 ≠ hid := by
      intro p hp
      have := (QHash.foldl_remove_sublist r.connected _).subset hp
      simpa [QHash.remove] using (List.mem_filter.1 this).2
    refine ⟨?_, ?_, ?_⟩
    · intro x hx
      rcases List.mem_or_eq_of_mem_set hx with hx | hx
      · exact h1 x hx
      · subst hx
        simp [hf]
    · intro p hp
      have hp0 := hsub.subset hp
      obtain ⟨x, hx, hxf⟩ := h2 p hp0
      have hne : reply ≠ p.2 := by
        intro heq
        have : p = (hid, reply) := List.inj_on_of_nodup_map h3 hp0 hmem heq.symm
        exact hsub1 p hp (by rw [this])
      exact ⟨x, by rw [List.getElem?_set_ne hne]; exact hx, hxf⟩
    · exact h3.sublist (hsub.map Prod.snd)

theorem onControllerCommand_replies_pending (ozw16 : Bool) (s : State) (h : Nat)
    (c : ControllerCommand) (st : ControllerState) :
    ((onControllerCommand ozw16 s h c st).replies = s.replies ∧
      (onControllerCommand ozw16 s h c st).b.m_pendingControllerCommands
        = s.b.m_pendingControllerCommands) ∨
    ∃ e, (onControllerCommand ozw16 s h c st).replies = (finishPending s h e).replies ∧
      (onControllerCommand ozw16 s h c st).b.m_pendingControllerCommands
        = (finishPending s h e).b.m_pendingControllerCommands := by
  simp only [onControllerCommand]
  split
  · exact Or.inl ⟨rfl, rfl⟩
  · split <;> (repeat' split) <;> cases ozw16 <;>
      first
      | exact Or.inl ⟨rfl, rfl⟩
      | exact Or.inr ⟨.ZWaveErrorBackendError, rfl, rfl⟩
      | exact Or.inr ⟨.ZWaveErrorNoError, rfl, rfl⟩

/-- Operations other than the four commands and the controller notification leave
the replies and the pending-command map as they were. -/
theorem step_replies_pending (ozw16 : Bool) (s t : State) (op : Op)
    (hc : isCommand op = false) (hn : ∀ h c st, op ≠ .onControllerCommand h c st)
    (hstep : step ozw16 s op = some t) :
    t.replies = s.replies ∧
      t.b.m_pendingControllerCommands = s.b.m_pendingControllerCommands := by
  cases op <;> simp only [isCommand, Bool.true_eq_false] at hc <;>
    simp only [step, Option.some.injEq] at hstep <;> try subst hstep
  case startNetwork u p k st =>
    cases st <;> cases hopt : s.b.m_options <;> simp [startNetwork, initOZW, call, hopt]
  case stopNetwork u st =>
    simp only [stopNetwork]
    (repeat' split) <;> simp [deinitOZW, call]
  case factoryResetNetwork u =>
    simp only [factoryResetNetwork]
    split <;> simp [call]
  case onDriverReady hid =>
    simp only [onDriverReady]
    split <;> simp [emit]
  case onDriverFailed p =>
    cases ozw16
    · simp only [Bool.false_eq_true, if_false, onDriverFailed] at hstep
      split at hstep
      · simp at hstep
      · simp only [Option.some.injEq] at hstep
        subst hstep
        simp [emit]
    · simp only [if_true, Option.some.injEq] at hstep
      subst hstep
      simp only [onDriverFailed_OZW16]
      split <;> simp [emit]
  case onDriverRemoved hid => exact ⟨rfl, rfl⟩
  case onNewNode hid n => simp only [onNewNode, emitForNetwork]; split <;> simp [emit]
  case onNodeAdded hid n => simp only [onNodeAdded, emitForNetwork]; split <;> simp [emit]
  case onNodeNaming hid n => simp only [onNodeNaming, emitForNetwork]; split <;> simp [emit]
  case onNodeRemoved hid n => simp only [onNodeRemoved, emitForNetwork]; split <;> simp [emit]
  case onValueRemoved hid n i =>
    simp only [onValueRemoved, emitForNetwork]; split <;> simp [emit]
  case onNodeProtocolInfoReceived hid n =>
    simp only [onNodeProtocolInfoReceived, emitForNetwork]; split <;> simp [emit]
  case onNodeQueryComplete hid n =>
    simp only [onNodeQueryComplete, emitForNetwork]; split <;> simp [emit]
  case onZWaveNotification hid n c =>
    simp only [onZWaveNotification, addDriverTimeout]
    (repeat' split) <;> simp [emit, call]
  case onControllerCommand hid c st => exact absurd rfl (hn hid c st)

theorem step_repliesOnce (ozw16 : Bool) (s t : State) (op : Op)
    (hstep : step ozw16 s op = some t)
    (h : RepliesOnce s.replies s.b.m_pendingControllerCommands) :
    RepliesOnce t.replies t.b.m_pendingControllerCommands := by
  cases hc : isCommand op with
  | true =>
    rcases command_shape ozw16 s t op hc hstep with ⟨e, h1, h2⟩ | ⟨hid, hfree, h1, h2⟩
    · rw [h1, h2]
      exact repliesOnce_immediate h e
    · rw [h1, h2]
      exact repliesOnce_park h hid hfree
  | false =>
    by_cases hn : ∀ hid c st, op ≠ .onControllerCommand hid c st
    · obtain ⟨h1, h2⟩ := step_replies_pending ozw16 s t op hc hn hstep
      rw [h1, h2]
      exact h
    · simp only [not_forall, not_not] at hn
      obtain ⟨hid, c, st, hop⟩ := hn
      subst hop
      simp only [step, Option.some.injEq] at hstep
      subst hstep
      rcases onControllerCommand_replies_pending ozw16 s hid c st with ⟨h1, h2⟩ | ⟨e, h1, h2⟩
      · rw [h1, h2]
        exact h
      · rw [h1, h2]
        exact repliesOnce_finishPending h hid e

theorem run_repliesOnce (ozw16 : Bool) (ops : List Op) :
    ∀ s t : State, run ozw16 s ops = some t →
      RepliesOnce s.replies s.b.m_pendingControllerCommands →
      RepliesOnce t.replies t.b.m_pendingControllerCommands := by
  induction ops with
  | nil =>
    intro s t h hinv
    simp only [run, Option.some.injEq] at h
    exact h ▸ hinv
  | cons op ops ih =>
    intro s t h hinv
    simp only [run] at h
    cases hstep : step ozw16 s op with
    | none => simp [hstep] at h
    | some s1 =>
      simp only [hstep, Option.some_bind] at h
      exact ih s1 t h (step_repliesOnce ozw16 s s1 op hstep hinv)

/-- C5. Along every sequence of calls and notifications from the initial backend, in
either build variant: no reply has finished more than once; every reply held in the
pending-command map exists and has not finished (so a reply that was resolved, at
once or by a notification, is not in the map and no later notification can resolve it
again); no reply is held under two handles; and a further command operation keeps
every entry of the pending-command map (a parked entry is never overwritten). -/
theorem C5_reply_resolved_at_most_once (ozw16 : Bool) (ops : List Op) (s : State)
    (hrun : run ozw16 State.init ops = some s) :
    (∀ r ∈ s.replies, r.finishedWith.length ≤ 1) ∧
    (∀ e ∈ s.b.m_pendingControllerCommands,
      ∃ r, s.replies[e.2]? = some r ∧ r.finishedWith = []) ∧
    (s.b.m_pendingControllerCommands.map Prod.snd).Nodup ∧
    (∀ (op : Op) (t : State), isCommand op = true → step ozw16 s op = some t →
      ∀ e ∈ s.b.m_pendingControllerCommands, e ∈ t.b.m_pendingControllerCommands) := by
  have hinv : RepliesOnce s.replies s.b.m_pendingControllerCommands :=
    run_repliesOnce ozw16 ops State.init s hrun (by
      simp [RepliesOnce, State.init, Backend.init])
  refine ⟨hinv.1, hinv.2.1, hinv.2.2, ?_⟩
  intro op t hc hstep e he
  rcases command_shape ozw16 s t op hc hstep with ⟨_, _, h2⟩ | ⟨hid, hfree, _, h2⟩
  · rw [h2]
    exact he
  · rw [h2, QHash.insert, QHash.remove_of_not_contains _ _ hfree]
    exact List.mem_cons_of_mem _ he

/-- Witness of C5 on the run that ends in `correlatedState`. -/
theorem C5_reply_resolved_at_most_once_witness :
    run false State.init
        [.startNetwork 1 "/dev/ttyX" "" true, .onDriverReady 7, .addNode 1 false true,
         .addNode 1 false true,
         .onControllerCommand 7 .ControllerCommandNone .ControllerStateWaiting,
         .removeNode 1 true, .cancelPendingOperation 1 true,
         .onControllerCommand 7 .ControllerCommandNone .ControllerStateFailed,
         .onControllerCommand 7 .ControllerCommandNone .ControllerStateFailed,
         .removeFailedNode 1 5 true]
      = some correlatedState ∧
    ((∀ r ∈ correlatedState.replies, r.finishedWith.length ≤ 1) ∧
     (∀ e ∈ correlatedState.b.m_pendingControllerCommands,
       ∃ r, correlatedState.replies[e.2]? = some r ∧ r.finishedWith = []) ∧
     (correlatedState.b.m_pendingControllerCommands.map Prod.snd).Nodup ∧
     (∀ (op : Op) (t : State), isCommand op = true → step false correlatedState op = some t →
       ∀ e ∈ correlatedState.b.m_pendingControllerCommands,
         e ∈ t.b.m_pendingControllerCommands)) :=
  ⟨by decide,
   C5_reply_resolved_at_most_once false
     [.startNetwork 1 "/dev/ttyX" "" true, .onDriverReady 7, .addNode 1 false true,
      .addNode 1 false true,
      .onControllerCommand 7 .ControllerCommandNone .ControllerStateWaiting,
      .removeNode 1 true, .cancelPendingOperation 1 true,
      .onControllerCommand 7 .ControllerCommandNone .ControllerStateFailed,
      .onControllerCommand 7 .ControllerCommandNone .ControllerStateFailed,
      .removeFailedNode 1 5 true]
     correlatedState (by decide)⟩

/-! ## C6: the add-node scenario -/

/-- C6. From a state where `networkUuid` is the only network bound to the handle `h`
and no pending command exists for `h`, in either build variant: `addNode` accepted by
the transport parks its reply; the following notification (`h`, AddDevice, Waiting)
resolves that reply with success and emits `waitingForNodeAdditionChanged(networkUuid,
true)`; the following (`h`, AddDevice, Completed) emits
`waitingForNodeAdditionChanged(networkUuid, false)` and leaves no pending command for
`h`. -/
theorem C6_add_node_scenario (ozw16 : Bool) (s : State) (networkUuid : QUuid) (h : Nat)
    (useSecurity : Bool)
    (hh : QHash.get? s.b.m_homeIds networkUuid = some h)
    (honly : ∀ e ∈ s.b.m_homeIds, e.2 = h → e.1 = networkUuid)
    (hidle : QHash.contains s.b.m_pendingControllerCommands h = false) :
    let res := addNode ozw16 s networkUuid useSecurity true
    let s2 := onControllerCommand ozw16 res.1 h .ControllerCommandAddDevice .ControllerStateWaiting
    let s3 := onControllerCommand ozw16 s2 h .ControllerCommandAddDevice .ControllerStateCompleted
    (QHash.get? res.1.b.m_pendingControllerCommands h = some res.2 ∧
      finishedWith res.1 res.2 = [] ∧
      res.1.calls = s.calls ++ [.AddNode h useSecurity]) ∧
    (finishedWith s2 res.2 = [.ZWaveErrorNoError] ∧
      s2.events = res.1.events ++ [.waitingForNodeAdditionChanged networkUuid true]) ∧
    (s3.events = s2.events ++ [.waitingForNodeAdditionChanged networkUuid false] ∧
      QHash.contains s3.b.m_pendingControllerCommands h = false ∧
      finishedWith s3 res.2 = [.ZWaveErrorNoError]) := by
  have hc := QHash.contains_of_get? hh
  have hv : QHash.value s.b.m_homeIds networkUuid 0 = h := QHash.value_of_get? hh
  have hmem := QHash.mem_of_get? hh
  have hkey : QHash.key s.b.m_homeIds h 0 = networkUuid := QHash.key_of_unique hmem honly
  have hvals : h ∈ QHash.values s.b.m_homeIds := List.mem_map.2 ⟨(networkUuid, h), hmem, rfl⟩
  cases ozw16 <;>
  simp [addNode, hc, hv, hidle, parkReply, startReply, connectFinished, newReply, call,
      list_set_concat_length,
      onControllerCommand, finishPending, finishReply, emitFinished, emit, finishedWith,
      resetControllerCommand, hkey, hvals, QHash.get?_insert_self, QHash.remove_insert_self,
      QHash.remove_remove, QHash.contains_remove_self]

/-- Witness of C6 on `idleState`: network `1` is the only one bound to handle `7`,
which has no pending command. -/
theorem C6_add_node_scenario_witness :
    (QHash.get? idleState.b.m_homeIds 1 = some 7 ∧
      (∀ e ∈ idleState.b.m_homeIds, e.2 = 7 → e.1 = 1) ∧
      QHash.contains idleState.b.m_pendingControllerCommands 7 = false) ∧
    (let res := addNode false idleState 1 true true
     let s2 := onControllerCommand false res.1 7 .ControllerCommandAddDevice .ControllerStateWaiting
     let s3 := onControllerCommand false s2 7 .ControllerCommandAddDevice .ControllerStateCompleted
     (QHash.get? res.1.b.m_pendingControllerCommands 7 = some res.2 ∧
       finishedWith res.1 res.2 = [] ∧
       res.1.calls = idleState.calls ++ [.AddNode 7 true]) ∧
     (finishedWith s2 res.2 = [.ZWaveErrorNoError] ∧
       s2.events = res.1.events ++ [.waitingForNodeAdditionChanged 1 true]) ∧
     (s3.events = s2.events ++ [.waitingForNodeAdditionChanged 1 false] ∧
       QHash.contains s3.b.m_pendingControllerCommands 7 = false ∧
       finishedWith s3 res.2 = [.ZWaveErrorNoError])) :=
  ⟨⟨by decide, by decide, by decide⟩,
   C6_add_node_scenario false idleState 1 7 true (by decide) (by decide) (by decide)⟩

/-! ## C7: Error and Failed notifications -/

/-- C7, evaluated on the failing input. Network `1` owns handle `7`;
`removeFailedNode(1, 5)` is accepted by the transport and parks reply `0`. The
notifications (`7`, RemoveFailedNode, Failed) and (`7`, RemoveFailedNode, Error) with
`OZW_16`, and the notifications (`7`, Failed) and (`7`, Error) without it, leave the
reply unresolved and the pending command in place; the handle then answers a new
`addNode` (reply `1`) with the in-use error. -/
theorem C7_remove_failed_node_reply_not_resolved :
    (run true State.init
        [.startNetwork 1 "/dev/ttyX" "" true, .onDriverReady 7, .removeFailedNode 1 5 true,
         .onControllerCommand 7 .ControllerCommandRemoveFailedNode .ControllerStateFailed,
         .onControllerCommand 7 .ControllerCommandRemoveFailedNode .ControllerStateError,
         .addNode 1 false true]).map
      (fun s => (s.b.m_pendingControllerCommands, finishedWith s 0, finishedWith s 1))
      = some ([(7, 0)], [], [.ZWaveErrorInUse]) ∧
    (run false State.init
        [.startNetwork 1 "/dev/ttyX" "" true, .onDriverReady 7, .removeFailedNode 1 5 true,
         .onControllerCommand 7 .ControllerCommandNone .ControllerStateFailed,
         .onControllerCommand 7 .ControllerCommandNone .ControllerStateError,
         .addNode 1 false true]).map
      (fun s => (s.b.m_pendingControllerCommands, finishedWith s 0, finishedWith s 1))
      = some ([(7, 0)], [], [.ZWaveErrorInUse]) := by
  decide

/-! ## C8: Completed and the pending command -/

/-- C8 fails as stated: `addNode(1)` is accepted on handle `7` and a Completed
notification for `7` (reported as AddDevice with `OZW_16`, attributed to the
remembered AddDevice without) arrives before any Waiting or Normal notification; in
both build variants the pending command for `7` is still registered afterwards and
its reply is unresolved. -/
theorem C8_counterexample :
    (run true State.init
        [.startNetwork 1 "/dev/ttyX" "" true, .onDriverReady 7, .addNode 1 false true,
         .onControllerCommand 7 .ControllerCommandAddDevice .ControllerStateCompleted]).map
      (fun s => (QHash.contains s.b.m_pendingControllerCommands 7, finishedWith s 0))
      = some (true, []) ∧
    (run false State.init
        [.startNetwork 1 "/dev/ttyX" "" true, .onDriverReady 7, .addNode 1 false true,
         .onControllerCommand 7 .ControllerCommandNone .ControllerStateCompleted]).map
      (fun s => (QHash.contains s.b.m_pendingControllerCommands 7, finishedWith s 0))
      = some (true, []) := by
  decide

/-- C8 as amended. A Completed notification, whatever its handle and command kind and
in either build variant, leaves the pending-command map and every reply as they were:
a pending command exists for `h` afterwards exactly when one existed before. -/
theorem C8_completed_keeps_pending (ozw16 : Bool) (s : State) (h : Nat)
    (command : ControllerCommand) :
    (onControllerCommand ozw16 s h command .ControllerStateCompleted).b.m_pendingControllerCommands
      = s.b.m_pendingControllerCommands ∧
    (onControllerCommand ozw16 s h command .ControllerStateCompleted).replies = s.replies ∧
    QHash.contains
        (onControllerCommand ozw16 s h command
          .ControllerStateCompleted).b.m_pendingControllerCommands h
      = QHash.contains s.b.m_pendingControllerCommands h := by
  simp only [onControllerCommand]
  split
  · simp
  · split <;> cases ozw16 <;> simp [resetControllerCommand, emit]

/-! ## C9: Completed and the waiting levels -/

/-- C9 fails as stated. Network `1` owns handle `7`; `removeNode(1)` is accepted and
a Waiting notification raises the removal level. With `OZW_16` a notification (`7`,
AddDevice, Completed) then lowers only the addition level; without `OZW_16` the same
happens when `addNode(1)` was requested in between, so that AddDevice is the
remembered kind. In both runs the removal level of network `1` remains true. -/
theorem C9_counterexample :
    (run true State.init
        [.startNetwork 1 "/dev/ttyX" "" true, .onDriverReady 7, .removeNode 1 true,
         .onControllerCommand 7 .ControllerCommandRemoveDevice .ControllerStateWaiting,
         .onControllerCommand 7 .ControllerCommandAddDevice .ControllerStateCompleted]).map
      (fun s => (additionLevel s.events 1, removalLevel s.events 1))
      = some (some false, some true) ∧
    (run false State.init
        [.startNetwork 1 "/dev/ttyX" "" true, .onDriverReady 7, .removeNode 1 true,
         .onControllerCommand 7 .ControllerCommandNone .ControllerStateWaiting,
         .addNode 1 false true,
         .onControllerCommand 7 .ControllerCommandNone .ControllerStateCompleted]).map
      (fun s => (additionLevel s.events 1, removalLevel s.events 1))
      = some (some false, some true) := by
  decide

/-- C9 as amended. After a Completed notification for a registered handle `h`, for
the network `m_homeIds.key(h)` and the command kind the handler acts on (the reported
one with `OZW_16`, the remembered one without): the addition level is false unless
the kind is RemoveDevice, in which case it is as before; the removal level is false
unless the kind is AddDevice, in which case it is as before. For every other kind
both levels are false. -/
theorem C9_completed_levels (ozw16 : Bool) (s : State) (h : Nat) (command : ControllerCommand)
    (hreg : (QHash.values s.b.m_homeIds).contains h = true) :
    let kind := if ozw16 then command else s.b.m_controllerCommand
    let networkUuid := QHash.key s.b.m_homeIds h 0
    let s1 := onControllerCommand ozw16 s h command .ControllerStateCompleted
    additionLevel s1.events networkUuid =
      (if kind = .ControllerCommandRemoveDevice then additionLevel s.events networkUuid
       else some false) ∧
    removalLevel s1.events networkUuid =
      (if kind = .ControllerCommandAddDevice then removalLevel s.events networkUuid
       else some false) := by
  have hreg1 : h ∈ QHash.values s.b.m_homeIds := by simpa using hreg
  cases ozw16
  · simp only [onControllerCommand, Bool.false_eq_true, if_false]
    cases s.b.m_controllerCommand <;>
    simp [hreg1, resetControllerCommand, emit, additionLevel, removalLevel, List.foldl_append]
  · simp only [onControllerCommand, if_true]
    cases command <;>
    simp [hreg1, resetControllerCommand, emit, additionLevel, removalLevel, List.foldl_append]

/-- Witness of C9 on `idleState`, handle `7`, reported kind ReplaceFailedNode. -/
theorem C9_completed_levels_witness :
    (QHash.values idleState.b.m_homeIds).contains 7 = true ∧
    (let kind := if true then ControllerCommand.ControllerCommandReplaceFailedNode
       else idleState.b.m_controllerCommand
     let networkUuid := QHash.key idleState.b.m_homeIds 7 0
     let s1 := onControllerCommand true idleState 7 .ControllerCommandReplaceFailedNode
       .ControllerStateCompleted
     additionLevel s1.events networkUuid =
       (if kind = .ControllerCommandRemoveDevice then additionLevel idleState.events networkUuid
        else some false) ∧
     removalLevel s1.events networkUuid =
       (if kind = .ControllerCommandAddDevice then removalLevel idleState.events networkUuid
        else some false)) :=
  ⟨by decide,
   C9_completed_levels true idleState 7 .ControllerCommandReplaceFailedNode (by decide)⟩

/-! ## C10: cancelPendingOperation -/

/-- C10 fails as stated: on `idleState`, where network `1` owns handle `7`, a cancel
that the transport rejects resolves the reply with the in-use error, not with the
backend error. -/
theorem C10_counterexample :
    QHash.contains idleState.b.m_homeIds 1 = true ∧
    finishedWith (cancelPendingOperation idleState 1 false).1
        (cancelPendingOperation idleState 1 false).2 = [.ZWaveErrorInUse] ∧
    finishedWith (cancelPendingOperation idleState 1 false).1
        (cancelPendingOperation idleState 1 false).2 ≠ [.ZWaveErrorBackendError] := by
  decide

/-- C10 as amended. `cancelPendingOperation` returns a new reply resolved at once: on
a network that has a transport handle it issues exactly one
`CancelControllerCommand` call for that handle and resolves with success when the
transport acknowledges and with the in-use error when the transport rejects; on an
unknown network it resolves with the not-found error and issues no call. The backend
members and the emitted signals are unchanged in every case. -/
theorem C10_cancel_outcome (s : State) (networkUuid : QUuid) (status : Bool) :
    ImmediateReply s (cancelPendingOperation s networkUuid status)
      (if QHash.contains s.b.m_homeIds networkUuid = false then .ZWaveErrorNetworkUuidNotFound
       else if status = true then .ZWaveErrorNoError
       else .ZWaveErrorInUse) ∧
    (cancelPendingOperation s networkUuid status).1.calls =
      (if QHash.contains s.b.m_homeIds networkUuid = true
       then s.calls ++ [.CancelControllerCommand (homeId s networkUuid)]
       else s.calls) ∧
    (cancelPendingOperation s networkUuid status).1.b = s.b ∧
    (cancelPendingOperation s networkUuid status).1.events = s.events := by
  cases hc : QHash.contains s.b.m_homeIds networkUuid <;> cases status <;>
  simp [cancelPendingOperation, ImmediateReply, homeId, finishReply, emitFinished, newReply,
    call, list_set_concat_length, hc]

/-! ## C11: cancelPendingOperation and the pending command -/

theorem cancelPendingOperation_b (s : State) (networkUuid : QUuid) (status : Bool) :
    (cancelPendingOperation s networkUuid status).1.b = s.b := by
  cases hc : QHash.contains s.b.m_homeIds networkUuid <;> cases status <;>
  simp [cancelPendingOperation, finishReply, emitFinished, newReply, call,
    list_set_concat_length, hc]

theorem addNode_inUse_iff (ozw16 : Bool) (s : State) (networkUuid : QUuid)
    (useSecurity status : Bool) :
    finishedWith (addNode ozw16 s networkUuid useSecurity status).1
        (addNode ozw16 s networkUuid useSecurity status).2 = [.ZWaveErrorInUse]
      ↔ (QHash.contains s.b.m_homeIds networkUuid = true ∧
          QHash.contains s.b.m_pendingControllerCommands (homeId s networkUuid) = true) := by
  cases hc : QHash.contains s.b.m_homeIds networkUuid <;>
  cases hp : QHash.contains s.b.m_pendingControllerCommands (homeId s networkUuid) <;>
  cases status <;> cases ozw16 <;>
  simp only [homeId] at hp <;>
  simp [addNode, homeId, finishReply, emitFinished, newReply, parkReply, startReply,
    connectFinished, call, list_set_concat_length, finishedWith, hc, hp]

/-- C11 fails as stated: `addNode(1)` is accepted on handle `7` (reply `0` parked), the
cancel is acknowledged by the transport (reply `1`), and the directly following
`addNode(1)` (reply `2`) is rejected with the in-use error; the pending command of
handle `7` is still registered and its reply unresolved, in both build variants. -/
theorem C11_counterexample :
    (run true State.init
        [.startNetwork 1 "/dev/ttyX" "" true, .onDriverReady 7, .addNode 1 false true,
         .cancelPendingOperation 1 true, .addNode 1 false true]).map
      (fun s => (s.b.m_pendingControllerCommands, finishedWith s 0, finishedWith s 1,
        finishedWith s 2))
      = some ([(7, 0)], [], [.ZWaveErrorNoError], [.ZWaveErrorInUse]) ∧
    (run false State.init
        [.startNetwork 1 "/dev/ttyX" "" true, .onDriverReady 7, .addNode 1 false true,
         .cancelPendingOperation 1 true, .addNode 1 false true]).map
      (fun s => (s.b.m_pendingControllerCommands, finishedWith s 0, finishedWith s 1,
        finishedWith s 2))
      = some ([(7, 0)], [], [.ZWaveErrorNoError], [.ZWaveErrorInUse]) := by
  decide

/-- C11 as amended. `cancelPendingOperation`, acknowledged or not, leaves the
pending-command map as it was and resolves no reply other than its own; a directly
following `addNode` for the same network is therefore rejected with the in-use error
exactly when the network has a handle for which a pending command existed before the
cancel. -/
theorem C11_cancel_keeps_pending (ozw16 : Bool) (s : State) (networkUuid : QUuid)
    (acknowledged useSecurity status : Bool) :
    (cancelPendingOperation s networkUuid acknowledged).1.b.m_pendingControllerCommands
      = s.b.m_pendingControllerCommands ∧
    (cancelPendingOperation s networkUuid acknowledged).1.replies.take s.replies.length
      = s.replies ∧
    (finishedWith
        (addNode ozw16 (cancelPendingOperation s networkUuid acknowledged).1 networkUuid
          useSecurity status).1
        (addNode ozw16 (cancelPendingOperation s networkUuid acknowledged).1 networkUuid
          useSecurity status).2 = [.ZWaveErrorInUse]
      ↔ (QHash.contains s.b.m_homeIds networkUuid = true ∧
          QHash.contains s.b.m_pendingControllerCommands (homeId s networkUuid) = true)) := by
  have hb : (cancelPendingOperation s networkUuid acknowledged).1.b = s.b :=
    cancelPendingOperation_b s networkUuid acknowledged
  refine ⟨by rw [hb], ?_, ?_⟩
  · cases hc : QHash.contains s.b.m_homeIds networkUuid <;> cases acknowledged <;>
      simp [cancelPendingOperation, finishReply, emitFinished, newReply, call,
        list_set_concat_length, hc]
  · rw [addNode_inUse_iff, homeId, hb]
    rfl

/-! ## C12: DriverFailed with OZW_16 -/

/-- C12, evaluated on the failing input. Networks `1` ("/dev/ttyA") and `2`
("/dev/ttyB") are started; DriverFailed arrives for "/dev/ttyA", then DriverReady with
handle `7`. With `OZW_16` the failed setup stays at the head of the pending list:
`networkFailed(1)` is emitted, then handle `7` is bound to the failed network `1` and
network `2` is left pending. Without `OZW_16` the slot takes the head: handle `7` is
bound to network `2`. -/
theorem C12_driver_failed_keeps_pending_setup :
    (run true State.init
        [.startNetwork 1 "/dev/ttyA" "" true, .startNetwork 2 "/dev/ttyB" "" true,
         .onDriverFailed "/dev/ttyA"]).map
      (fun s => (s.b.m_pendingNetworkSetups, s.events))
      = some ([1, 2], [.networkFailed 1]) ∧
    (run true State.init
        [.startNetwork 1 "/dev/ttyA" "" true, .startNetwork 2 "/dev/ttyB" "" true,
         .onDriverFailed "/dev/ttyA", .onDriverReady 7]).map
      (fun s => (s.b.m_pendingNetworkSetups, s.b.m_homeIds, s.events))
      = some ([2], [(1, 7)], [.networkFailed 1, .networkStarted 1]) ∧
    (run false State.init
        [.startNetwork 1 "/dev/ttyA" "" true, .startNetwork 2 "/dev/ttyB" "" true,
         .onDriverFailed "/dev/ttyA", .onDriverReady 7]).map
      (fun s => (s.b.m_pendingNetworkSetups, s.b.m_homeIds, s.events))
      = some ([], [(2, 7)], [.networkFailed 1, .networkStarted 2]) := by
  decide

/-! ## C13: the add-driver timeout -/

/-- C13. When the pending setups are `networkUuid :: rest` and the address registered
for `networkUuid` is `serialPort`, a notification with home id `0` and code Timeout
removes exactly the head of the pending setups, calls `RemoveDriver(serialPort)`, emits
`networkFailed(networkUuid)` and nothing else, and changes no other member. -/
theorem C13_add_driver_timeout (s : State) (networkUuid : QUuid) (rest : List QUuid)
    (serialPort : String) (nodeId : Nat)
    (hpending : s.b.m_pendingNetworkSetups = networkUuid :: rest)
    (hport : QHash.get? s.b.m_serialPorts networkUuid = some serialPort) :
    onZWaveNotification s 0 nodeId .NotificationCodeTimeout
      = { s with b := { s.b with m_pendingNetworkSetups := rest },
                 calls := s.calls ++ [.RemoveDriver serialPort],
                 events := s.events ++ [.networkFailed networkUuid] } := by
  simp [onZWaveNotification, addDriverTimeout, hpending, call, emit, QHash.value, hport]

/-- Witness of C13: networks `1` and `2` pending, network `1` registered on
"/dev/ttyA". -/
theorem C13_add_driver_timeout_witness :
    (startAll State.init [(1, "/dev/ttyA", ""), (2, "/dev/ttyB", "")]).b.m_pendingNetworkSetups
        = 1 :: [2] ∧
    QHash.get? (startAll State.init [(1, "/dev/ttyA", ""), (2, "/dev/ttyB", "")]).b.m_serialPorts 1
        = some "/dev/ttyA" ∧
    onZWaveNotification (startAll State.init [(1, "/dev/ttyA", ""), (2, "/dev/ttyB", "")]) 0 0
        .NotificationCodeTimeout
      = { startAll State.init [(1, "/dev/ttyA", ""), (2, "/dev/ttyB", "")] with
          b := { (startAll State.init [(1, "/dev/ttyA", ""), (2, "/dev/ttyB", "")]).b with
                 m_pendingNetworkSetups := [2] },
          calls := (startAll State.init [(1, "/dev/ttyA", ""), (2, "/dev/ttyB", "")]).calls
                     ++ [.RemoveDriver "/dev/ttyA"],
          events := (startAll State.init [(1, "/dev/ttyA", ""), (2, "/dev/ttyB", "")]).events
                     ++ [.networkFailed 1] } :=
  ⟨by decide, by decide,
   C13_add_driver_timeout (startAll State.init [(1, "/dev/ttyA", ""), (2, "/dev/ttyB", "")])
     1 [2] "/dev/ttyA" 0 (by decide) (by decide)⟩

/-! ## C14: a failed setup and the registry -/

/-- C14 fails as stated: network `1` is started on "/dev/ttyX" and its setup fails,
through the add-driver timeout, through DriverFailed without `OZW_16`, or through
DriverFailed with `OZW_16`. In each case the address entry of network `1` is still
registered, and a later `stopNetwork(1)` finds it, calls `RemoveDriver` and returns
the status of the transport instead of reporting an unknown network. -/
theorem C14_counterexample :
    (run false State.init
        [.startNetwork 1 "/dev/ttyX" "" true,
         .onZWaveNotification 0 0 .NotificationCodeTimeout]).map
      (fun s => (s.events, QHash.get? s.b.m_serialPorts 1, (stopNetwork s 1 true).2,
        (stopNetwork s 1 true).1.calls.getLast?))
      = some ([.networkFailed 1], some "/dev/ttyX", true, some (.RemoveDriver "/dev/ttyX")) ∧
    (run false State.init
        [.startNetwork 1 "/dev/ttyX" "" true, .onDriverFailed "/dev/ttyX"]).map
      (fun s => (s.events, QHash.get? s.b.m_serialPorts 1, (stopNetwork s 1 true).2,
        (stopNetwork s 1 true).1.calls.getLast?))
      = some ([.networkFailed 1], some "/dev/ttyX", true, some (.RemoveDriver "/dev/ttyX")) ∧
    (run true State.init
        [.startNetwork 1 "/dev/ttyX" "" true, .onDriverFailed "/dev/ttyX"]).map
      (fun s => (s.events, QHash.get? s.b.m_serialPorts 1, (stopNetwork s 1 true).2,
        (stopNetwork s 1 true).1.calls.getLast?))
      = some ([.networkFailed 1], some "/dev/ttyX", true, some (.RemoveDriver "/dev/ttyX")) := by
  exact ⟨rfl, rfl, rfl⟩

/-- C14 as amended. A setup failure leaves the registration of the network in place:
the status notification (add-driver timeout included) and the DriverFailed slot of
either build variant change neither `m_serialPorts` nor `m_homeIds`; and for a uuid
that has an address entry `stopNetwork` calls `RemoveDriver` with that address and
returns the status of the transport. -/
theorem C14_failed_setup_stays_registered (s : State) (homeId nodeId : Nat)
    (code : NotificationCode) (serialPort : String) (networkUuid : QUuid) (status : Bool) :
    ((onZWaveNotification s homeId nodeId code).b.m_serialPorts = s.b.m_serialPorts ∧
      (onZWaveNotification s homeId nodeId code).b.m_homeIds = s.b.m_homeIds) ∧
    ((onDriverFailed_OZW16 s serialPort).b.m_serialPorts = s.b.m_serialPorts ∧
      (onDriverFailed_OZW16 s serialPort).b.m_homeIds = s.b.m_homeIds) ∧
    ((onDriverFailed s).map (fun t => (t.b.m_serialPorts, t.b.m_homeIds))
      = (onDriverFailed s).map (fun _ => (s.b.m_serialPorts, s.b.m_homeIds))) ∧
    (stopNetwork s networkUuid status
      = if QHash.contains s.b.m_serialPorts networkUuid = true then
          ((stopNetwork s networkUuid status).1, status)
        else (s, false)) ∧
    ((stopNetwork s networkUuid status).1.calls
      = if QHash.contains s.b.m_serialPorts networkUuid = true then
          s.calls ++ [.RemoveDriver (QHash.value s.b.m_serialPorts networkUuid "")]
        else s.calls) := by
  refine ⟨?_, ?_, ?_, ?_, ?_⟩
  · simp only [onZWaveNotification, addDriverTimeout]
    (repeat' split) <;> simp [emit, call]
  · simp only [onDriverFailed_OZW16]
    split <;> simp [emit]
  · simp only [onDriverFailed]
    split <;> simp [emit]
  · cases hc : QHash.contains s.b.m_serialPorts networkUuid <;> simp [stopNetwork, hc]
  · cases hc : QHash.contains s.b.m_serialPorts networkUuid
    · simp [stopNetwork, hc]
    · simp only [stopNetwork, hc]
      simp only [Bool.not_true, Bool.false_eq_true, if_false, if_true]
      split <;> simp [deinitOZW, call]

/-! ## C15: stopNetwork and the pending setups -/

/-- C15, evaluated on the failing input. Network `1` is started and stopped before its
driver is ready, network `2` is started, and DriverReady arrives with handle `7`.
`stopNetwork(1)` has removed the address entry of network `1` but not its entry in the
pending setups, so handle `7` is bound to the stopped network `1` and network `2` stays
pending, in both build variants. -/
theorem C15_stop_network_keeps_pending_setup :
    (run true State.init
        [.startNetwork 1 "/dev/ttyA" "" true, .stopNetwork 1 true]).map
      (fun s => (s.b.m_serialPorts, s.b.m_homeIds, s.b.m_pendingNetworkSetups))
      = some ([], [], [1]) ∧
    (run true State.init
        [.startNetwork 1 "/dev/ttyA" "" true, .stopNetwork 1 true,
         .startNetwork 2 "/dev/ttyB" "" true, .onDriverReady 7]).map
      (fun s => (s.b.m_serialPorts, s.b.m_homeIds, s.b.m_pendingNetworkSetups, s.events))
      = some ([(2, "/dev/ttyB")], [(1, 7)], [2], [.networkStarted 1]) ∧
    (run false State.init
        [.startNetwork 1 "/dev/ttyA" "" true, .stopNetwork 1 true,
         .startNetwork 2 "/dev/ttyB" "" true, .onDriverReady 7]).map
      (fun s => (s.b.m_serialPorts, s.b.m_homeIds, s.b.m_pendingNetworkSetups, s.events))
      = some ([(2, "/dev/ttyB")], [(1, 7)], [2], [.networkStarted 1]) := by
  exact ⟨rfl, rfl, rfl⟩

/-! ## C16: the status notification table -/

/-- C16. For a status notification with a home id `homeId` that is bound to network
`networkUuid` and to no other network, outside the add-driver timeout (home id `0`,
code Timeout, a setup pending), `onZWaveNotification` emits exactly the signals of the
fixed table for `networkUuid` and the node, in order, and changes nothing else: Dead
gives failed true then reachable false, Timeout reachable false, Alive reachable
true, Sleep sleep true, Awake sleep false, and NoOperation and MsgComplete nothing. -/
theorem C16_status_table (s : State) (homeId nodeId : Nat) (code : NotificationCode)
    (networkUuid : QUuid)
    (hbound : (networkUuid, homeId) ∈ s.b.m_homeIds)
    (honly : ∀ e ∈ s.b.m_homeIds, e.2 = homeId → e.1 = networkUuid)
    (hnormal : ¬ (homeId = 0 ∧ code = .NotificationCodeTimeout ∧
      s.b.m_pendingNetworkSetups.length > 0)) :
    onZWaveNotification s homeId nodeId code
      = { s with events := s.events ++ statusEvents code networkUuid nodeId } := by
  have hkey : QHash.key s.b.m_homeIds homeId 0 = networkUuid :=
    QHash.key_of_unique hbound honly
  have hvals : homeId ∈ QHash.values s.b.m_homeIds :=
    List.mem_map.2 ⟨(networkUuid, homeId), hbound, rfl⟩
  simp only [onZWaveNotification, if_neg hnormal]
  cases code <;> simp [hvals, hkey, emit, statusEvents]

/-- Witness of C16 on `idleState`: Dead for node `3` of handle `7`, owned by network
`1`. -/
theorem C16_status_table_witness :
    ((1, 7) ∈ idleState.b.m_homeIds ∧
      (∀ e ∈ idleState.b.m_homeIds, e.2 = 7 → e.1 = 1) ∧
      ¬ (7 = 0 ∧ NotificationCode.NotificationCodeDead = .NotificationCodeTimeout ∧
        idleState.b.m_pendingNetworkSetups.length > 0)) ∧
    onZWaveNotification idleState 7 3 .NotificationCodeDead
      = { idleState with
          events := idleState.events ++ statusEvents .NotificationCodeDead 1 3 } :=
  ⟨⟨by decide, by decide, by decide⟩,
   C16_status_table idleState 7 3 .NotificationCodeDead 1 (by decide) (by decide) (by decide)⟩

/-! ## C17: decoding an enumerated value -/

theorem indexOfFrom_spec (list : List String) (value : String) :
    ∀ pos : Nat,
      (value ∉ list → QStringList.indexOfFrom list value pos = -1) ∧
      (value ∈ list → ∃ i : Nat, QStringList.indexOfFrom list value pos = ((pos + i : Nat) : Int) ∧
        list[i]? = some value ∧ ∀ j < i, list[j]? ≠ some value) := by
  induction list with
  | nil => intro pos; simp [QStringList.indexOfFrom]
  | cons x rest ih =>
    intro pos
    by_cases hx : x = value
    · subst hx
      refine ⟨by simp, fun _ => ⟨0, by simp [QStringList.indexOfFrom], by simp, by simp⟩⟩
    · obtain ⟨h1, h2⟩ := ih (pos + 1)
      have hne : ¬ value = x := fun h => hx h.symm
      refine ⟨?_, ?_⟩
      · intro hmem
        simp only [List.mem_cons, not_or] at hmem
        simp [QStringList.indexOfFrom, hx, h1 hmem.2]
      · intro hmem
        simp only [List.mem_cons, hne, false_or] at hmem
        obtain ⟨i, hi, hget, hfirst⟩ := h2 hmem
        refine ⟨i + 1, ?_, by simpa using hget, ?_⟩
        · simp only [QStringList.indexOfFrom, hx, if_false, hi]
          congr 1
          omega
        · intro j hj
          cases j with
          | zero => simp [hx]
          | succ j => simpa using hfirst j (by omega)

/-- C17. When the transport reports the items `items`, the selected string
`selection` and a help text for an enumerated value, `readValue` returns, without an
exception, a value whose payload is `items` and whose selection is the first index
at which `selection` occurs in `items`, or `-1` when it does not occur. -/
theorem C17_list_value_decoded (m : Manager)
    (homeId nodeId id genre commandClassId inst index : Nat)
    (items : List String) (selection help : String)
    (hitems : m.GetValueListItems
      { homeId := homeId, nodeId := nodeId, genre := genre, commandClassId := commandClassId,
        inst := inst, index := index, type := .TypeList } = .ok items)
    (hselection : m.GetValueListSelection
      { homeId := homeId, nodeId := nodeId, genre := genre, commandClassId := commandClassId,
        inst := inst, index := index, type := .TypeList } = .ok selection)
    (hhelp : m.GetValueHelp
      { homeId := homeId, nodeId := nodeId, genre := genre, commandClassId := commandClassId,
        inst := inst, index := index, type := .TypeList } = .ok help) :
    readValue m homeId nodeId id genre commandClassId inst index .TypeList
      = .ok { id := id, genre := genre, commandClass := commandClassId, inst := inst,
              index := index, type := .TypeList, description := help,
              value := .stringList items,
              valueListSelection := QStringList.indexOf items selection } ∧
    (selection ∉ items → QStringList.indexOf items selection = -1) ∧
    (selection ∈ items → ∃ i : Nat, QStringList.indexOf items selection = (i : Int) ∧
      items[i]? = some selection ∧ ∀ j < i, items[j]? ≠ some selection) := by
  refine ⟨?_, ?_, ?_⟩
  · simp [readValue, hitems, hselection, hhelp, bind, Except.bind, pure, Except.pure]
  · exact (indexOfFrom_spec items selection 0).1
  · intro hmem
    obtain ⟨i, hi, hget, hfirst⟩ := (indexOfFrom_spec items selection 0).2 hmem
    exact ⟨i, by simpa [QStringList.indexOf] using hi, hget, hfirst⟩

/-- Witness of C17: a list of two items and a selected string that is not in the list
give the selection `-1`. -/
theorem C17_list_value_decoded_witness :
    ((listManager ["Off", "On"] "Auto" "mode").GetValueListItems
        { homeId := 7, nodeId := 3, genre := 1, commandClassId := 0x25, inst := 1, index := 0,
          type := .TypeList } = .ok ["Off", "On"] ∧
      (listManager ["Off", "On"] "Auto" "mode").GetValueListSelection
        { homeId := 7, nodeId := 3, genre := 1, commandClassId := 0x25, inst := 1, index := 0,
          type := .TypeList } = .ok "Auto" ∧
      (listManager ["Off", "On"] "Auto" "mode").GetValueHelp
        { homeId := 7, nodeId := 3, genre := 1, commandClassId := 0x25, inst := 1, index := 0,
          type := .TypeList } = .ok "mode") ∧
    (readValue (listManager ["Off", "On"] "Auto" "mode") 7 3 42 1 0x25 1 0 .TypeList
      = .ok { id := 42, genre := 1, commandClass := 0x25, inst := 1,
              index := 0, type := .TypeList, description := "mode",
              value := .stringList ["Off", "On"],
              valueListSelection := QStringList.indexOf ["Off", "On"] "Auto" } ∧
     ("Auto" ∉ ["Off", "On"] → QStringList.indexOf ["Off", "On"] "Auto" = -1) ∧
     ("Auto" ∈ ["Off", "On"] → ∃ i : Nat, QStringList.indexOf ["Off", "On"] "Auto" = (i : Int) ∧
       ["Off", "On"][i]? = some "Auto" ∧ ∀ j < i, ["Off", "On"][j]? ≠ some "Auto")) :=
  ⟨⟨rfl, rfl, rfl⟩,
   C17_list_value_decoded (listManager ["Off", "On"] "Auto" "mode") 7 3 42 1 0x25 1 0
     ["Off", "On"] "Auto" "mode" rfl rfl rfl⟩

/-! ## C18: decoding and encoding an enumerated selection -/

theorem tryCall_calls (s : State) (c : Call) (result : Except OZWException Bool) :
    (tryCall s c result).1.calls = s.calls ++ [c] := by
  simp [tryCall, call]

/-- C18. Let network `networkUuid` have the handle `homeId`, and let the transport
report for an enumerated value the items `items` and a selected string `selection`
that occurs in `items` (duplicates allowed). `readValue` then decodes a value, and
`setValue` with that value and its decoded selection issues exactly one manager call,
`SetValueListSelection` for the same value with the string `selection`. -/
theorem C18_selection_round_trip (conv : QVariantConversions) (m : Manager) (s : State)
    (networkUuid : QUuid) (homeId nodeId id genre commandClassId inst index : Nat)
    (items : List String) (selection help : String) (result : Except OZWException Bool)
    (hhandle : QHash.get? s.b.m_homeIds networkUuid = some homeId)
    (hitems : m.GetValueListItems
      { homeId := homeId, nodeId := nodeId, genre := genre, commandClassId := commandClassId,
        inst := inst, index := index, type := .TypeList } = .ok items)
    (hselection : m.GetValueListSelection
      { homeId := homeId, nodeId := nodeId, genre := genre, commandClassId := commandClassId,
        inst := inst, index := index, type := .TypeList } = .ok selection)
    (hhelp : m.GetValueHelp
      { homeId := homeId, nodeId := nodeId, genre := genre, commandClassId := commandClassId,
        inst := inst, index := index, type := .TypeList } = .ok help)
    (hmem : selection ∈ items) :
    ∃ value : ZWaveValue,
      readValue m homeId nodeId id genre commandClassId inst index .TypeList = .ok value ∧
      (setValue conv s networkUuid nodeId value result).1.calls
        = s.calls ++ [.SetValueListSelection homeId id selection] := by
  obtain ⟨i, hi, hget, _⟩ := (indexOfFrom_spec items selection 0).2 hmem
  have hidx : QStringList.indexOf items selection = (i : Int) := by
    simpa [QStringList.indexOf] using hi
  have hlt : i < items.length := (List.getElem?_eq_some_iff.1 hget).1
  have hc := QHash.contains_of_get? hhandle
  have hv : QHash.value s.b.m_homeIds networkUuid 0 = homeId := QHash.value_of_get? hhandle
  refine ⟨_, by
    simp [readValue, hitems, hselection, hhelp, bind, Except.bind, pure, Except.pure]
    rfl, ?_⟩
  simp only [setValue, hc, hv, hidx, QVariant.toStringList]
  have h1 : ¬ (((i : Int) < 0) ∨ ((i : Int) ≥ (items.length : Int))) := by omega
  simp only [Bool.not_true, Bool.false_eq_true, if_false, h1, tryCall_calls, Int.toNat_ofNat]
  simp [List.getD, hget]

/-- Witness of C18 on `idleState`: the items "Off", "On", "On" with "On" selected. -/
theorem C18_selection_round_trip_witness :
    (QHash.get? idleState.b.m_homeIds 1 = some 7 ∧
      (listManager ["Off", "On", "On"] "On" "mode").GetValueListItems
        { homeId := 7, nodeId := 3, genre := 1, commandClassId := 0x25, inst := 1, index := 0,
          type := .TypeList } = .ok ["Off", "On", "On"] ∧
      (listManager ["Off", "On", "On"] "On" "mode").GetValueListSelection
        { homeId := 7, nodeId := 3, genre := 1, commandClassId := 0x25, inst := 1, index := 0,
          type := .TypeList } = .ok "On" ∧
      (listManager ["Off", "On", "On"] "On" "mode").GetValueHelp
        { homeId := 7, nodeId := 3, genre := 1, commandClassId := 0x25, inst := 1, index := 0,
          type := .TypeList } = .ok "mode" ∧
      "On" ∈ ["Off", "On", "On"]) ∧
    ∃ value : ZWaveValue,
      readValue (listManager ["Off", "On", "On"] "On" "mode") 7 3 42 1 0x25 1 0 .TypeList
        = .ok value ∧
      (setValue zeroConversions idleState 1 3 value (.ok true)).1.calls
        = idleState.calls ++ [.SetValueListSelection 7 42 "On"] :=
  ⟨⟨by decide, rfl, rfl, rfl, by decide⟩,
   C18_selection_round_trip zeroConversions (listManager ["Off", "On", "On"] "On" "mode")
     idleState 1 7 3 42 1 0x25 1 0 ["Off", "On", "On"] "On" "mode" (.ok true)
     (by decide) rfl rfl rfl (by decide)⟩

/-! ## C19: encoding an enumerated selection -/

/-- C19. For a value of the enumerated type: when its selection index is negative or
not below the number of items, `setValue` returns `false`, issues no manager call and
changes nothing; when the index is inside the list and the network has a handle,
`setValue` issues exactly one manager call, `SetValueListSelection` with the item at
that index. -/
theorem C19_list_selection_encoded (conv : QVariantConversions) (s : State)
    (networkUuid : QUuid) (nodeId : Nat) (value : ZWaveValue)
    (result : Except OZWException Bool) (htype : value.type = .TypeList) :
    ((value.valueListSelection < 0 ∨
        value.valueListSelection ≥ value.value.toStringList.length) →
      setValue conv s networkUuid nodeId value result = (s, false)) ∧
    (∀ (homeId i : Nat) (item : String),
      QHash.get? s.b.m_homeIds networkUuid = some homeId →
      value.valueListSelection = (i : Int) →
      value.value.toStringList[i]? = some item →
      (setValue conv s networkUuid nodeId value result).1.calls
        = s.calls ++ [.SetValueListSelection homeId value.id item]) := by
  refine ⟨?_, ?_⟩
  · intro hout
    cases hc : QHash.contains s.b.m_homeIds networkUuid
    · simp [setValue, hc]
    · simp [setValue, hc, htype, hout]
  · intro homeId i item hhandle hsel hitem
    have hc := QHash.contains_of_get? hhandle
    have hv : QHash.value s.b.m_homeIds networkUuid 0 = homeId := QHash.value_of_get? hhandle
    have hlt : i < value.value.toStringList.length := (List.getElem?_eq_some_iff.1 hitem).1
    have h1 : ¬ (((i : Int) < 0) ∨ ((i : Int) ≥ (value.value.toStringList.length : Int))) := by
      omega
    simp only [setValue, hc, hv, htype, hsel]
    simp only [Bool.not_true, Bool.false_eq_true, if_false, h1, tryCall_calls, Int.toNat_ofNat]
    simp [List.getD, hitem]

/-- Witness of C19: an enumerated value with the items "Off", "On" on `idleState`. -/
theorem C19_list_selection_encoded_witness :
    (ZWaveValue.type
        { id := 42, genre := 1, commandClass := 0x25, inst := 1, index := 0, type := .TypeList,
          description := "mode", value := .stringList ["Off", "On"],
          valueListSelection := 1 } = .TypeList) ∧
    (((1 : Int) < 0 ∨ (1 : Int) ≥ (QVariant.stringList ["Off", "On"]).toStringList.length →
        setValue zeroConversions idleState 1 3
          { id := 42, genre := 1, commandClass := 0x25, inst := 1, index := 0,
            type := .TypeList, description := "mode", value := .stringList ["Off", "On"],
            valueListSelection := 1 } (.ok true) = (idleState, false)) ∧
     (∀ (homeId i : Nat) (item : String),
       QHash.get? idleState.b.m_homeIds 1 = some homeId →
       (1 : Int) = (i : Int) →
       (QVariant.stringList ["Off", "On"]).toStringList[i]? = some item →
       (setValue zeroConversions idleState 1 3
          { id := 42, genre := 1, commandClass := 0x25, inst := 1, index := 0,
            type := .TypeList, description := "mode", value := .stringList ["Off", "On"],
            valueListSelection := 1 } (.ok true)).1.calls
         = idleState.calls ++ [.SetValueListSelection homeId 42 item])) :=
  ⟨rfl,
   C19_list_selection_encoded zeroConversions idleState 1 3
     { id := 42, genre := 1, commandClass := 0x25, inst := 1, index := 0, type := .TypeList,
       description := "mode", value := .stringList ["Off", "On"], valueListSelection := 1 }
     (.ok true) rfl⟩

/-! ## C20: exceptions of the read primitives -/

/-- C20, evaluated on the failing input. On `idleState`, where network `1` owns handle
`7`, a value-added and a value-changed notification arrive for a value whose read
primitive throws. The exception leaves `readValue` and leaves `onValueAdded` and
`onValueChanged`, in both build variants: no result is produced and no signal is
emitted. The sibling paths catch it: `setValue` answers `false` when its manager call
throws, and `nodeIsSecureDevice` answers `false`. -/
theorem C20_read_exception_propagates :
    readValue throwingManager 7 3 42 1 0x25 1 0 .TypeBool
      = .error "Invalid ValueID passed to GetValueAsBool" ∧
    onValueAdded true throwingManager idleState 7 3 42 1 0x25 1 0 .TypeBool
      = .error "Invalid ValueID passed to GetValueAsBool" ∧
    onValueAdded false throwingManager idleState 7 3 42 1 0x25 1 0 .TypeBool
      = .error "Invalid ValueID passed to GetValueAsBool" ∧
    onValueChanged true throwingManager idleState 7 3 42 1 0x25 1 0 .TypeBool
      = .error "Invalid ValueID passed to GetValueAsBool" ∧
    onValueChanged false throwingManager idleState 7 3 42 1 0x25 1 0 .TypeBool
      = .error "Invalid ValueID passed to GetValueAsBool" ∧
    (setValue zeroConversions idleState 1 3
        { id := 42, genre := 1, commandClass := 0x25, inst := 1, index := 0, type := .TypeBool,
          description := "", value := .bool true, valueListSelection := -1 }
        (.error "Invalid ValueID passed to SetValue")).2 = false ∧
    nodeIsSecureDevice throwingManager idleState 1 3 = false := by
  exact ⟨rfl, rfl, rfl, rfl, rfl, rfl, rfl⟩

/-! ## C21: range and monotonicity of the link quality -/

theorem normalizeLinkQuality_le (raw : Int) : normalizeLinkQuality raw ≤ 100 := by
  unfold normalizeLinkQuality
  omega

theorem normalizeLinkQuality_mono (raw1 raw2 : Int) (h : raw1 ≤ raw2) :
    normalizeLinkQuality raw1 ≤ normalizeLinkQuality raw2 := by
  unfold normalizeLinkQuality
  omega

theorem linkQuality_eq (ozw16 : Bool) (nodeData : NodeData) :
    linkQuality ozw16 nodeData = normalizeLinkQuality (rawSignalMetric ozw16 nodeData) := by
  cases ozw16 <;> simp [linkQuality, rawSignalMetric]

/-- C21. In both build variants, when the node statistics are read, the value
`updateNodeLinkQuality` emits through `nodeLinkQualityStatus` is the normalised raw
signal metric (`m_quality` without `OZW_16`, the averaged RSSI reading with it); it is
at most 100 (and at least 0, being unsigned), and it does not decrease when the raw
metric does not decrease. -/
theorem C21_link_quality_bounded_monotone (ozw16 : Bool) (m : Manager) (s : State)
    (homeId nodeId : Nat) (nodeData other : NodeData)
    (hread : m.GetNodeStatistics homeId nodeId = .ok nodeData)
    (hle : rawSignalMetric ozw16 nodeData ≤ rawSignalMetric ozw16 other) :
    updateNodeLinkQuality ozw16 m s homeId nodeId
      = .ok (emit s (.nodeLinkQualityStatus (QHash.key s.b.m_homeIds homeId 0) nodeId
          (linkQuality ozw16 nodeData))) ∧
    0 ≤ linkQuality ozw16 nodeData ∧ linkQuality ozw16 nodeData ≤ 100 ∧
    linkQuality ozw16 nodeData ≤ linkQuality ozw16 other := by
  refine ⟨?_, Nat.zero_le _, ?_, ?_⟩
  · simp [updateNodeLinkQuality, hread, bind, Except.bind, pure, Except.pure]
  · rw [linkQuality_eq]
    exact normalizeLinkQuality_le _
  · rw [linkQuality_eq, linkQuality_eq]
    exact normalizeLinkQuality_mono _ _ hle

/-- Witness of C21 without `OZW_16`: `m_quality` 10 against `m_quality` 200. -/
theorem C21_link_quality_bounded_monotone_witness :
    ((statisticsManager ⟨10, "", "", "", "", ""⟩).GetNodeStatistics 7 3
        = .ok ⟨10, "", "", "", "", ""⟩ ∧
      rawSignalMetric false ⟨10, "", "", "", "", ""⟩
        ≤ rawSignalMetric false ⟨200, "", "", "", "", ""⟩) ∧
    (updateNodeLinkQuality false (statisticsManager ⟨10, "", "", "", "", ""⟩) idleState 7 3
      = .ok (emit idleState (.nodeLinkQualityStatus (QHash.key idleState.b.m_homeIds 7 0) 3
          (linkQuality false ⟨10, "", "", "", "", ""⟩))) ∧
     0 ≤ linkQuality false ⟨10, "", "", "", "", ""⟩ ∧
     linkQuality false ⟨10, "", "", "", "", ""⟩ ≤ 100 ∧
     linkQuality false ⟨10, "", "", "", "", ""⟩ ≤ linkQuality false ⟨200, "", "", "", "", ""⟩) :=
  ⟨⟨rfl, by decide⟩,
   C21_link_quality_bounded_monotone false (statisticsManager ⟨10, "", "", "", "", ""⟩)
     idleState 7 3 ⟨10, "", "", "", "", ""⟩ ⟨200, "", "", "", "", ""⟩ rfl (by decide)⟩

/-! ## C24: the link quality is always 100 -/

theorem rawSignalMetric_nonneg (ozw16 : Bool) (nodeData : NodeData) :
    0 ≤ rawSignalMetric ozw16 nodeData := by
  cases ozw16
  · simp only [rawSignalMetric, Bool.false_eq_true, if_false]
    omega
  · simp only [rawSignalMetric, if_true, rssiAverage]
    split <;> omega

/-- C24. For every node statistics record, in both build variants, the link quality
computed by `updateNodeLinkQuality` is exactly 100: the raw metric is an unsigned
8-bit value (every `m_quality`; every five RSSI strings, whether "MAX", "MIN", numeric
or unreadable), hence at least 0, and `2 * (raw + 100)` is then at least 200 before it
is clamped. -/
theorem C24_link_quality_always_100 (ozw16 : Bool) (nodeData : NodeData) :
    0 ≤ rawSignalMetric ozw16 nodeData ∧
    200 ≤ 2 * (rawSignalMetric ozw16 nodeData + 100) ∧
    linkQuality ozw16 nodeData = 100 := by
  have h := rawSignalMetric_nonneg ozw16 nodeData
  refine ⟨h, by omega, ?_⟩
  rw [linkQuality_eq]
  unfold normalizeLinkQuality
  omega

/-! ## C23: DriverFailed with no pending setup -/

/-- C23, evaluated on the failing input. Without `OZW_16`, `onDriverFailed` takes the
first pending setup without looking whether there is one: on a backend with no pending
setup (the initial backend, or `idleState` whose only network is already bound) the
slot has no defined result, and neither has any run that contains the notification.
The sibling slot `onDriverReady` guards the empty list and leaves the state as it
is. -/
theorem C23_driver_failed_on_empty_list :
    onDriverFailed State.init = none ∧
    onDriverFailed idleState = none ∧
    step false idleState (.onDriverFailed "/dev/ttyX") = none ∧
    run false State.init
      [.startNetwork 1 "/dev/ttyX" "" true, .onDriverReady 7, .onDriverFailed "/dev/ttyX",
       .addNode 1 false true] = none ∧
    (∀ s : State, s.b.m_pendingNetworkSetups = [] → onDriverFailed s = none) ∧
    onDriverReady idleState 7 = idleState := by
  refine ⟨rfl, rfl, rfl, rfl, ?_, rfl⟩
  intro s hs
  simp [onDriverFailed, hs]

/-! ## C25: a rejected command and the remembered kind -/

/-- C25 fails as stated: on `idleState`, where network `1` owns handle `7` and the
remembered kind is None, `addNode` and `removeNode` rejected by the transport resolve
their reply with the backend error and leave AddDevice, respectively RemoveDevice, as
the remembered kind (build without `OZW_16`). -/
theorem C25_counterexample :
    idleState.b.m_controllerCommand = .ControllerCommandNone ∧
    finishedWith (addNode false idleState 1 false false).1 (addNode false idleState 1 false false).2
      = [.ZWaveErrorBackendError] ∧
    (addNode false idleState 1 false false).1.b.m_controllerCommand
      = .ControllerCommandAddDevice ∧
    (addNode false idleState 1 false false).1.b ≠ idleState.b ∧
    finishedWith (removeNode false idleState 1 false).1 (removeNode false idleState 1 false).2
      = [.ZWaveErrorBackendError] ∧
    (removeNode false idleState 1 false).1.b.m_controllerCommand
      = .ControllerCommandRemoveDevice ∧
    (removeNode false idleState 1 false).1.b ≠ idleState.b := by
  decide

/-- C25 as amended. Without `OZW_16`, when network `networkUuid` has a handle with no
pending command and the transport rejects `addNode` or `removeNode`, the reply is a new
one resolved at once with the backend error, no signal is emitted, and the backend
after the call equals the backend before except for the remembered command kind,
which is AddDevice after `addNode` and RemoveDevice after `removeNode`. -/
theorem C25_rejected_command_sets_kind (s : State) (networkUuid : QUuid) (homeId : Nat)
    (useSecurity : Bool)
    (hhandle : QHash.get? s.b.m_homeIds networkUuid = some homeId)
    (hidle : QHash.contains s.b.m_pendingControllerCommands homeId = false) :
    (ImmediateReply s (addNode false s networkUuid useSecurity false) .ZWaveErrorBackendError ∧
      (addNode false s networkUuid useSecurity false).1.b
        = { s.b with m_controllerCommand := .ControllerCommandAddDevice } ∧
      (addNode false s networkUuid useSecurity false).1.events = s.events) ∧
    (ImmediateReply s (removeNode false s networkUuid false) .ZWaveErrorBackendError ∧
      (removeNode false s networkUuid false).1.b
        = { s.b with m_controllerCommand := .ControllerCommandRemoveDevice } ∧
      (removeNode false s networkUuid false).1.events = s.events) := by
  have hc := QHash.contains_of_get? hhandle
  have hv : QHash.value s.b.m_homeIds networkUuid 0 = homeId := QHash.value_of_get? hhandle
  simp [addNode, removeNode, ImmediateReply, finishReply, emitFinished, newReply, call,
    list_set_concat_length, hc, hv, hidle]

/-- Witness of C25 on `idleState`. -/
theorem C25_rejected_command_sets_kind_witness :
    (QHash.get? idleState.b.m_homeIds 1 = some 7 ∧
      QHash.contains idleState.b.m_pendingControllerCommands 7 = false) ∧
    ((ImmediateReply idleState (addNode false idleState 1 true false) .ZWaveErrorBackendError ∧
       (addNode false idleState 1 true false).1.b
         = { idleState.b with m_controllerCommand := .ControllerCommandAddDevice } ∧
       (addNode false idleState 1 true false).1.events = idleState.events) ∧
     (ImmediateReply idleState (removeNode false idleState 1 false) .ZWaveErrorBackendError ∧
       (removeNode false idleState 1 false).1.b
         = { idleState.b with m_controllerCommand := .ControllerCommandRemoveDevice } ∧
       (removeNode false idleState 1 false).1.events = idleState.events)) :=
  ⟨⟨by decide, by decide⟩,
   C25_rejected_command_sets_kind idleState 1 7 true (by decide) (by decide)⟩

/-! ## C26: value types setValue does not write -/

/-- C26. For a value whose type is none of Bool, Button, Byte, Short and List (so for
Int, Decimal and String), `setValue` returns `false`, issues no manager call and
changes nothing, on a registered network as on any other; yet `readValue` decodes the
values of the types Int, Decimal and String that the transport reports. -/
theorem C26_types_not_written (conv : QVariantConversions) (m : Manager) (s : State)
    (networkUuid : QUuid) (nodeId : Nat) (value : ZWaveValue)
    (result : Except OZWException Bool)
    (htype : value.type ≠ .TypeBool ∧ value.type ≠ .TypeButton ∧ value.type ≠ .TypeByte ∧
      value.type ≠ .TypeShort ∧ value.type ≠ .TypeList) :
    setValue conv s networkUuid nodeId value result = (s, false) ∧
    (∀ (homeId id genre commandClassId inst index : Nat) (val : Int) (help : String),
      m.GetValueAsInt ⟨homeId, nodeId, genre, commandClassId, inst, index, .TypeInt⟩ = .ok val →
      m.GetValueHelp ⟨homeId, nodeId, genre, commandClassId, inst, index, .TypeInt⟩ = .ok help →
      readValue m homeId nodeId id genre commandClassId inst index .TypeInt
        = .ok ⟨id, genre, commandClassId, inst, index, .TypeInt, help, .int val, -1⟩) ∧
    (∀ (homeId id genre commandClassId inst index : Nat) (val : QFloat) (help : String),
      m.GetValueAsFloat ⟨homeId, nodeId, genre, commandClassId, inst, index, .TypeDecimal⟩
        = .ok val →
      m.GetValueHelp ⟨homeId, nodeId, genre, commandClassId, inst, index, .TypeDecimal⟩
        = .ok help →
      readValue m homeId nodeId id genre commandClassId inst index .TypeDecimal
        = .ok ⟨id, genre, commandClassId, inst, index, .TypeDecimal, help, .float val, -1⟩) ∧
    (∀ (homeId id genre commandClassId inst index : Nat) (val help : String),
      m.GetValueAsString ⟨homeId, nodeId, genre, commandClassId, inst, index, .TypeString⟩
        = .ok val →
      m.GetValueHelp ⟨homeId, nodeId, genre, commandClassId, inst, index, .TypeString⟩
        = .ok help →
      readValue m homeId nodeId id genre commandClassId inst index .TypeString
        = .ok ⟨id, genre, commandClassId, inst, index, .TypeString, help, .string val, -1⟩) := by
  obtain ⟨h1, h2, h3, h4, h5⟩ := htype
  refine ⟨?_, ?_, ?_, ?_⟩
  · cases hc : QHash.contains s.b.m_homeIds networkUuid
    · simp [setValue, hc]
    · cases ht : value.type <;> simp_all [setValue]
  · intro homeId id genre commandClassId inst index val help hval hhelp
    simp [readValue, hval, hhelp, bind, Except.bind, pure, Except.pure]
  · intro homeId id genre commandClassId inst index val help hval hhelp
    simp [readValue, hval, hhelp, bind, Except.bind, pure, Except.pure]
  · intro homeId id genre commandClassId inst index val help hval hhelp
    simp [readValue, hval, hhelp, bind, Except.bind, pure, Except.pure]

/-- Witness of C26 on `idleState`: a value of type Int. -/
theorem C26_types_not_written_witness :
    (ValueType.TypeInt ≠ .TypeBool ∧ ValueType.TypeInt ≠ .TypeButton ∧
      ValueType.TypeInt ≠ .TypeByte ∧ ValueType.TypeInt ≠ .TypeShort ∧
      ValueType.TypeInt ≠ .TypeList) ∧
    setValue zeroConversions idleState 1 3
      ⟨42, 1, 0x25, 1, 0, .TypeInt, "level", .int 5, -1⟩ (.ok true) = (idleState, false) :=
  ⟨by decide,
   (C26_types_not_written zeroConversions throwingManager idleState 1 3
     ⟨42, 1, 0x25, 1, 0, .TypeInt, "level", .int 5, -1⟩ (.ok true) (by decide)).1⟩

/-! ## C22: attribution of a notification without OZW_16 -/

/-- C22 fails as stated: without `OZW_16`, networks `1` and `2` own the handles `7` and
`8`; `addNode(1)` is accepted (reply `0`), then `removeNode(2)` is accepted (reply `1`).
The Waiting notification for handle `7` resolves reply `0` with success but emits
`waitingForNodeRemovalChanged(1, true)`, not `waitingForNodeAdditionChanged(1, true)`:
the remembered kind is the one of the last command on any handle. -/
theorem C22_counterexample :
    (run false State.init
        [.startNetwork 1 "/dev/ttyA" "" true, .startNetwork 2 "/dev/ttyB" "" true,
         .onDriverReady 7, .onDriverReady 8, .addNode 1 false true, .removeNode 2 true,
         .onControllerCommand 7 .ControllerCommandNone .ControllerStateWaiting]).map
      (fun s => (s.events, finishedWith s 0, finishedWith s 1))
      = some ([.networkStarted 1, .networkStarted 2, .waitingForNodeRemovalChanged 1 true],
          [.ZWaveErrorNoError], []) := by
  rfl

theorem QHash.get?_remove_ne {κ ν : Type} [DecidableEq κ] (m : List (κ × ν)) (k k1 : κ)
    (h : k1 ≠ k) : QHash.get? (QHash.remove m k) k1 = QHash.get? m k1 := by
  have hp : (fun a : κ × ν => decide (decide (a.1 ≠ k) = true ∧ decide (a.1 = k1) = true))
      = (fun a : κ × ν => decide (a.1 = k1)) := by
    funext a
    by_cases ha : a.1 = k1
    · simp [ha, h]
    · simp [ha]
  simp only [QHash.get?, QHash.remove, List.find?_filter, hp]

theorem QHash.get?_insert_ne {κ ν : Type} [DecidableEq κ] (m : List (κ × ν)) (k k1 : κ) (v : ν)
    (h : k1 ≠ k) : QHash.get? (QHash.insert m k v) k1 = QHash.get? m k1 := by
  have hne : ¬ k = k1 := fun h1 => h h1.symm
  have := QHash.get?_remove_ne m k k1 h
  simp only [QHash.get?, QHash.insert, List.find?_cons] at this ⊢
  simp [hne, this]

theorem addNode_accepted (s : State) (networkUuid : QUuid) (homeId : Nat) (useSecurity : Bool)
    (hhandle : QHash.get? s.b.m_homeIds networkUuid = some homeId)
    (hidle : QHash.contains s.b.m_pendingControllerCommands homeId = false) :
    addNode false s networkUuid useSecurity true
      = ({ s with
            replies := s.replies ++ [{ finishedWith := [], connected := [homeId] }],
            calls := s.calls ++ [.AddNode homeId useSecurity],
            b := { s.b with
              m_controllerCommand := .ControllerCommandAddDevice,
              m_pendingControllerCommands :=
                QHash.insert s.b.m_pendingControllerCommands homeId s.replies.length } },
          s.replies.length) := by
  have hc := QHash.contains_of_get? hhandle
  have hv : QHash.value s.b.m_homeIds networkUuid 0 = homeId := QHash.value_of_get? hhandle
  simp [addNode, hc, hv, hidle, parkReply, startReply, connectFinished, newReply, call,
    list_set_concat_length]

theorem removeNode_accepted (s : State) (networkUuid : QUuid) (homeId : Nat)
    (hhandle : QHash.get? s.b.m_homeIds networkUuid = some homeId)
    (hidle : QHash.contains s.b.m_pendingControllerCommands homeId = false) :
    removeNode false s networkUuid true
      = ({ s with
            replies := s.replies ++ [{ finishedWith := [], connected := [homeId] }],
            calls := s.calls ++ [.RemoveNode homeId],
            b := { s.b with
              m_controllerCommand := .ControllerCommandRemoveDevice,
              m_pendingControllerCommands :=
                QHash.insert s.b.m_pendingControllerCommands homeId s.replies.length } },
          s.replies.length) := by
  have hc := QHash.contains_of_get? hhandle
  have hv : QHash.value s.b.m_homeIds networkUuid 0 = homeId := QHash.value_of_get? hhandle
  simp [removeNode, hc, hv, hidle, parkReply, startReply, connectFinished, newReply, call,
    list_set_concat_length]

/-- C22 as amended. Without `OZW_16` there is one remembered command kind for the
whole backend, set by the last `addNode` or `removeNode` on any handle. Let network
`netA` be the only one bound to handle `h1`, network `netB` be bound to a different
handle `h2`, and neither handle have a pending command. After `addNode(netA)` and then
`removeNode(netB)`, both accepted, the remembered kind is RemoveDevice, and a Waiting
notification for `h1` (whatever kind it reports) resolves the reply of `netA` with
success and emits `waitingForNodeRemovalChanged(netA, true)`; the reply of `netB`
stays unresolved. -/
theorem C22_last_command_on_any_handle (s : State) (netA netB : QUuid) (h1 h2 : Nat)
    (useSecurity : Bool) (command : ControllerCommand)
    (hA : QHash.get? s.b.m_homeIds netA = some h1)
    (honly : ∀ e ∈ s.b.m_homeIds, e.2 = h1 → e.1 = netA)
    (hB : QHash.get? s.b.m_homeIds netB = some h2)
    (hne : h1 ≠ h2)
    (hidle1 : QHash.contains s.b.m_pendingControllerCommands h1 = false)
    (hidle2 : QHash.contains s.b.m_pendingControllerCommands h2 = false) :
    let r1 := addNode false s netA useSecurity true
    let r2 := removeNode false r1.1 netB true
    let s3 := onControllerCommand false r2.1 h1 command .ControllerStateWaiting
    r2.1.b.m_controllerCommand = .ControllerCommandRemoveDevice ∧
    finishedWith r2.1 r1.2 = [] ∧
    finishedWith s3 r1.2 = [.ZWaveErrorNoError] ∧
    s3.events = s.events ++ [.waitingForNodeRemovalChanged netA true] ∧
    finishedWith s3 r2.2 = [] := by
  have hmem := QHash.mem_of_get? hA
  have hkey : QHash.key s.b.m_homeIds h1 0 = netA := QHash.key_of_unique hmem honly
  have hvals : h1 ∈ QHash.values s.b.m_homeIds := List.mem_map.2 ⟨(netA, h1), hmem, rfl⟩
  have hne2 : h2 ≠ h1 := fun h => hne h.symm
  have hg2 : QHash.get? s.b.m_pendingControllerCommands h2 = none := by
    simpa [QHash.contains] using hidle2
  have hr1 := addNode_accepted s netA h1 useSecurity hA hidle1
  have hbusy : QHash.contains
      (QHash.insert s.b.m_pendingControllerCommands h1 s.replies.length) h2 = false := by
    simp [QHash.contains, QHash.get?_insert_ne _ _ _ _ hne2, hg2]
  have hr2 := removeNode_accepted (addNode false s netA useSecurity true).1 netB h2
    (by rw [hr1]; exact hB) (by rw [hr1]; exact hbusy)
  have hg1 : QHash.get?
      (QHash.insert (QHash.insert s.b.m_pendingControllerCommands h1 s.replies.length)
        h2 (s.replies.length + 1)) h1 = some s.replies.length := by
    rw [QHash.get?_insert_ne _ _ _ _ hne, QHash.get?_insert_self]
  simp only [hr2]
  simp only [hr1]
  simp [onControllerCommand, hvals, hkey, finishPending, hg1, finishReply, emitFinished, emit,
    finishedWith, List.getElem?_append, List.getElem_append_right]

/-- Witness of C22 on `twoNetworksState`: network `1` on handle `7`, network `2` on
handle `8`. -/
theorem C22_last_command_on_any_handle_witness :
    (QHash.get? twoNetworksState.b.m_homeIds 1 = some 7 ∧
      (∀ e ∈ twoNetworksState.b.m_homeIds, e.2 = 7 → e.1 = 1) ∧
      QHash.get? twoNetworksState.b.m_homeIds 2 = some 8 ∧
      (7 : Nat) ≠ 8 ∧
      QHash.contains twoNetworksState.b.m_pendingControllerCommands 7 = false ∧
      QHash.contains twoNetworksState.b.m_pendingControllerCommands 8 = false) ∧
    (let r1 := addNode false twoNetworksState 1 false true
     let r2 := removeNode false r1.1 2 true
     let s3 := onControllerCommand false r2.1 7 .ControllerCommandNone .ControllerStateWaiting
     r2.1.b.m_controllerCommand = .ControllerCommandRemoveDevice ∧
     finishedWith r2.1 r1.2 = [] ∧
     finishedWith s3 r1.2 = [.ZWaveErrorNoError] ∧
     s3.events = twoNetworksState.events ++ [.waitingForNodeRemovalChanged 1 true] ∧
     finishedWith s3 r2.2 = []) :=
  ⟨⟨by decide, by decide, by decide, by decide, by decide, by decide⟩,
   C22_last_command_on_any_handle twoNetworksState 1 2 7 8 false .ControllerCommandNone
     (by decide) (by decide) (by decide) (by decide) (by decide) (by decide)⟩

/-! ## C27: the network key option -/

theorem exists_cons_of_length_succ {α : Type} {n : Nat} {l : List α} (h : l.length = n + 1) :
    ∃ a t, l = a :: t ∧ t.length = n := by
  cases l with
  | nil => simp at h
  | cons a t => exact ⟨a, t, rfl, by simpa using h⟩

/-- C27. For every network key of 32 characters, `initOZW` registers as the
`NetworkKey` option the string built from the 16 consecutive two-character groups of
the key in order, each prefixed with "0x" and joined by ", "; that string has 94
characters. -/
theorem C27_network_key_option (s : State) (networkKey : String)
    (hlen : networkKey.length = 32) :
    (initOZW s networkKey).calls
      = s.calls ++ [.AddOptionString "NetworkKey" (networkKeyOption networkKey)] ∧
    networkKeyOption networkKey = groupedNetworkKey networkKey ∧
    (twoCharGroups networkKey.toList).length = 16 ∧
    (networkKeyOption networkKey).length = 94 := by
  refine ⟨by simp [initOZW, call], ?_⟩
  obtain ⟨cs⟩ := networkKey
  simp only [String.length] at hlen
  simp only [networkKeyOption, groupedNetworkKey, String.toList, String.length]
  obtain ⟨c0, t0, rfl, h0⟩ := exists_cons_of_length_succ hlen
  obtain ⟨c1, t1, rfl, h1⟩ := exists_cons_of_length_succ h0
  obtain ⟨c2, t2, rfl, h2⟩ := exists_cons_of_length_succ h1
  obtain ⟨c3, t3, rfl, h3⟩ := exists_cons_of_length_succ h2
  obtain ⟨c4, t4, rfl, h4⟩ := exists_cons_of_length_succ h3
  obtain ⟨c5, t5, rfl, h5⟩ := exists_cons_of_length_succ h4
  obtain ⟨c6, t6, rfl, h6⟩ := exists_cons_of_length_succ h5
  obtain ⟨c7, t7, rfl, h7⟩ := exists_cons_of_length_succ h6
  obtain ⟨c8, t8, rfl, h8⟩ := exists_cons_of_length_succ h7
  obtain ⟨c9, t9, rfl, h9⟩ := exists_cons_of_length_succ h8
  obtain ⟨c10, t10, rfl, h10⟩ := exists_cons_of_length_succ h9
  obtain ⟨c11, t11, rfl, h11⟩ := exists_cons_of_length_succ h10
  obtain ⟨c12, t12, rfl, h12⟩ := exists_cons_of_length_succ h11
  obtain ⟨c13, t13, rfl, h13⟩ := exists_cons_of_length_succ h12
  obtain ⟨c14, t14, rfl, h14⟩ := exists_cons_of_length_succ h13
  obtain ⟨c15, t15, rfl, h15⟩ := exists_cons_of_length_succ h14
  obtain ⟨c16, t16, rfl, h16⟩ := exists_cons_of_length_succ h15
  obtain ⟨c17, t17, rfl, h17⟩ := exists_cons_of_length_succ h16
  obtain ⟨c18, t18, rfl, h18⟩ := exists_cons_of_length_succ h17
  obtain ⟨c19, t19, rfl, h19⟩ := exists_cons_of_length_succ h18
  obtain ⟨c20, t20, rfl, h20⟩ := exists_cons_of_length_succ h19
  obtain ⟨c21, t21, rfl, h21⟩ := exists_cons_of_length_succ h20
  obtain ⟨c22, t22, rfl, h22⟩ := exists_cons_of_length_succ h21
  obtain ⟨c23, t23, rfl, h23⟩ := exists_cons_of_length_succ h22
  obtain ⟨c24, t24, rfl, h24⟩ := exists_cons_of_length_succ h23
  obtain ⟨c25, t25, rfl, h25⟩ := exists_cons_of_length_succ h24
  obtain ⟨c26, t26, rfl, h26⟩ := exists_cons_of_length_succ h25
  obtain ⟨c27, t27, rfl, h27⟩ := exists_cons_of_length_succ h26
  obtain ⟨c28, t28, rfl, h28⟩ := exists_cons_of_length_succ h27
  obtain ⟨c29, t29, rfl, h29⟩ := exists_cons_of_length_succ h28
  obtain ⟨c30, t30, rfl, h30⟩ := exists_cons_of_length_succ h29
  obtain ⟨c31, t31, rfl, h31⟩ := exists_cons_of_length_succ h30
  obtain rfl := List.length_eq_zero.1 h31
  simp [networkKeyLoop, QString.insert, twoCharGroups, List.intercalate]

/-- Witness of C27: for the key "0102030405060708090A0B0C0D0E0F10" the option is
"0x01, 0x02, 0x03, 0x04, 0x05, 0x06, 0x07, 0x08, 0x09, 0x0A, 0x0B, 0x0C, 0x0D, 0x0E,
0x0F, 0x10". -/
theorem C27_network_key_option_witness :
    "0102030405060708090A0B0C0D0E0F10".length = 32 ∧
    (initOZW State.init "0102030405060708090A0B0C0D0E0F10").calls
      = [.AddOptionString "NetworkKey"
          "0x01, 0x02, 0x03, 0x04, 0x05, 0x06, 0x07, 0x08, 0x09, 0x0A, 0x0B, 0x0C, 0x0D, 0x0E, 0x0F, 0x10"] ∧
    networkKeyOption "0102030405060708090A0B0C0D0E0F10"
      = groupedNetworkKey "0102030405060708090A0B0C0D0E0F10" ∧
    (networkKeyOption "0102030405060708090A0B0C0D0E0F10").length = 94 :=
  ⟨by decide,
   (C27_network_key_option State.init "0102030405060708090A0B0C0D0E0F10" (by decide)).1.trans
     (by decide),
   (C27_network_key_option State.init "0102030405060708090A0B0C0D0E0F10" (by decide)).2.1,
   (C27_network_key_option State.init "0102030405060708090A0B0C0D0E0F10" (by decide)).2.2.2⟩

end OpenZWaveBackend
